import Mathlib

/-!
Verification development for the job orchestration and snapshot/insight
pipeline of the global-trade-analysis repository.

The Python modules `app/jobs/runtime.py` and `app/jobs/insights_llm.py` are
shallowly embedded below.  JSON-like Python values are modelled by the
inductive type `PVal` (floating-point numbers do not occur in any of the
code paths under verification, so JSON numbers are modelled as integers);
`None` is `PVal.null`.  Wall-clock instants are modelled as natural numbers
counting milliseconds, and elapsed time is supplied as an explicit
non-negative delta.  Mutable process state (the per-job lock table and the
relational store) is passed explicitly.
-/

/-- JSON-like Python value (`None`, `bool`, `int`, `str`, `list`, `dict`).
Dictionaries are association lists in insertion order, as in Python. -/
inductive PVal where
  | null
  | bool (b : Bool)
  | int (n : Int)
  | str (s : String)
  | list (xs : List PVal)
  | obj (kvs : List (String × PVal))
  deriving Repr

/-- A Python `dict[str, Any]` in insertion order. -/
abbrev Dict := List (String × PVal)

/-- ASCII whitespace recognized by Python `str.strip()`. -/
def isPySpace (c : Char) : Bool :=
  c = ' ' || c = '\t' || c = '\n' || c = '\r' || c.toNat = 11 || c.toNat = 12

/-- Python `str.strip()` (ASCII whitespace). -/
def pyStrip (s : String) : String :=
  ⟨((s.data.dropWhile isPySpace).reverse.dropWhile isPySpace).reverse⟩

/-- Python `str.lower()` (ASCII case folding). -/
def pyLower (s : String) : String :=
  ⟨s.data.map Char.toLower⟩

/-- Python truthiness. -/
def pyFalsy : PVal → Bool
  | .null => true
  | .bool b => !b
  | .int n => n == 0
  | .str s => s == ""
  | .list xs => xs.isEmpty
  | .obj kvs => kvs.isEmpty

/-- Python `str(x)` for the values that occur in the embedded code.
Lists and dicts are rendered by a deterministic stand-in for `repr`
(only their non-membership in the geography allow-list matters). -/
def pyStr : PVal → String
  | .null => "None"
  | .bool b => if b then "True" else "False"
  | .int n => toString n
  | .str s => s
  | .list _ => "[...]"
  | .obj _ => "[dict]"

/-- `dict.get(key)` returning `None` (`PVal.null`) when absent, as Python. -/
def Dict.getP (d : Dict) (k : String) : PVal :=
  match d.find? (fun p => p.1 == k) with
  | some p => p.2
  | none => .null

/-- `dict.get(key)` on an arbitrary value: dictionaries look keys up,
anything else yields `None`. -/
def objGetP (v : PVal) (k : String) : PVal :=
  match v with
  | .obj kvs => Dict.getP kvs k
  | _ => .null

/-- `d[k] = v` Python semantics: replace in place if present, else append. -/
def Dict.setP (d : Dict) (k : String) (v : PVal) : Dict :=
  if d.any (fun p => p.1 == k) then
    d.map (fun p => if p.1 == k then (k, v) else p)
  else
    d ++ [(k, v)]

/-- `base.update(override)` Python semantics. -/
def dictUpdate (base over : Dict) : Dict :=
  over.foldl (fun acc p => acc.setP p.1 p.2) base

/-- Parse an optional sign followed by one or more decimal digits
(`int(str)` on the strings that occur here). -/
def parseIntChars : List Char → Option Int
  | [] => none
  | '-' :: rest =>
      if rest ≠ [] ∧ rest.all Char.isDigit then
        some (-(rest.foldl (fun a c => a * 10 + (c.toNat - 48)) 0 : Int))
      else none
  | '+' :: rest =>
      if rest ≠ [] ∧ rest.all Char.isDigit then
        some ((rest.foldl (fun a c => a * 10 + (c.toNat - 48)) 0 : Int))
      else none
  | l =>
      if l.all Char.isDigit then
        some ((l.foldl (fun a c => a * 10 + (c.toNat - 48)) 0 : Int))
      else none

/-- Python `int(value)`: succeeds on bools, ints and integer-shaped strings;
raises (modelled as `none`) otherwise. -/
def pyIntCast : PVal → Option Int
  | .bool b => some (if b then 1 else 0)
  | .int n => some n
  | .str s => parseIntChars (pyStrip s).data
  | _ => none

/-- `_as_bool` from `app/jobs/runtime.py`. -/
def as_bool (value : PVal) (dflt : Bool) : Bool :=
  match value with
  | .null => dflt
  | .bool b => b
  | .int n => n != 0
  | .str s =>
      let v := pyLower (pyStrip s)
      if v = "1" ∨ v = "true" ∨ v = "yes" ∨ v = "y" ∨ v = "on" then true
      else if v = "0" ∨ v = "false" ∨ v = "no" ∨ v = "n" ∨ v = "off" then false
      else dflt
  | _ => dflt

/-- `_as_int` from `app/jobs/runtime.py`. -/
def as_int (value : PVal) (dflt lo hi : Int) : Int :=
  match pyIntCast value with
  | none => dflt
  | some iv => if iv < lo then lo else if iv > hi then hi else iv

/-- `ALLOWED_GEOS` from `app/jobs/runtime.py`. -/
def ALLOWED_GEOS : List String := ["Global", "India", "Mexico", "Singapore", "Hong Kong"]

/-- `{g.lower(): g for g in ALLOWED_GEOS}[key]` lookup. -/
def canonGeo (key : String) : Option String :=
  ALLOWED_GEOS.find? (fun g => pyLower g == key)

/-- The loop body of `_as_geo_list`: canonicalize, drop unknown names,
de-duplicate preserving order. -/
def geoCollect : List String → List String → List String
  | [], out => out
  | raw :: rest, out =>
      match canonGeo (pyLower raw) with
      | none => geoCollect rest out
      | some geo =>
          if geo ∈ out then geoCollect rest out else geoCollect rest (out ++ [geo])

/-- Shared tail of `_as_geo_list`: `out or list(ALLOWED_GEOS)`. -/
def geoFromItems (items : List String) : List String :=
  let out := geoCollect items []
  if out.isEmpty then ALLOWED_GEOS else out

/-- Split on a character, as `str.split(",")`. -/
def splitOnChar (sep : Char) (l : List Char) : List (List Char) :=
  l.foldr (fun c acc =>
    match acc with
    | [] => if c = sep then [[], []] else [[c]]
    | g :: gs => if c = sep then [] :: g :: gs else (c :: g) :: gs) [[]]

/-- `_as_geo_list` from `app/jobs/runtime.py`. -/
def as_geo_list (value : PVal) : List String :=
  match value with
  | .null => ALLOWED_GEOS
  | .str s =>
      let items := ((splitOnChar ',' s.data).map (fun cs => pyStrip ⟨cs⟩)).filter (fun x => x ≠ "")
      geoFromItems items
  | .list xs =>
      let items := (xs.map (fun x => pyStrip (pyStr x))).filter (fun x => x ≠ "")
      geoFromItems items
  | _ => ALLOWED_GEOS

/-- `_canonical_scope` from `app/jobs/runtime.py`. -/
def canonical_scope (value : PVal) : Option String :=
  let s := pyStrip (if pyFalsy value then "" else pyStr value)
  if s = "" then none
  else if pyLower s = "global" then some "global"
  else canonGeo (pyLower s)

/-- `_normalize_scope_list` from `app/jobs/runtime.py`. -/
def normalize_scope_list (value : PVal) : List String :=
  match value with
  | .null => []
  | .str "" => []
  | v =>
      let items := match v with
        | .list xs => xs
        | x => [x]
      items.foldl (fun out item =>
        match canonical_scope item with
        | some scope => if scope ∈ out then out else out ++ [scope]
        | none => out) []

/-- Runtime configuration (`app/config.py` settings referenced by the jobs). -/
structure Settings where
  TZ : String
  JOB_RETENTION_DAYS : Int
  JOBS_ENABLED : Bool

/-- `_normalize_trade_corridors` from `app/jobs/runtime.py`. -/
def normalize_trade_corridors (_cfg : Settings) (_nowYear : Int) (raw : Dict) : Dict :=
  [("force_wci", .bool (as_bool (raw.getP "force_wci") false))]

/-- Shared `end_year` handling of the annual-series normalizers:
`_now_utc().year - 1` when absent, else clamped to `[1960, now.year]`. -/
def normalizeEndYear (nowYear : Int) (endYear : PVal) : Int :=
  match endYear with
  | .null => nowYear - 1
  | v => as_int v (nowYear - 1) 1960 nowYear

/-- `_normalize_trade_exim` from `app/jobs/runtime.py`. -/
def normalize_trade_exim (_cfg : Settings) (nowYear : Int) (raw : Dict) : Dict :=
  [("geo_list", .list ((as_geo_list (raw.getP "geo_list")).map .str)),
   ("years", .int (as_int (raw.getP "years") 5 2 20)),
   ("end_year", .int (normalizeEndYear nowYear (raw.getP "end_year"))),
   ("force", .bool (as_bool (raw.getP "force") false))]

/-- `_normalize_wealth_indicators` from `app/jobs/runtime.py`. -/
def normalize_wealth_indicators (_cfg : Settings) (nowYear : Int) (raw : Dict) : Dict :=
  [("geo_list", .list ((as_geo_list (raw.getP "geo_list")).map .str)),
   ("years", .int (as_int (raw.getP "years") 5 2 20)),
   ("end_year", .int (normalizeEndYear nowYear (raw.getP "end_year"))),
   ("force", .bool (as_bool (raw.getP "force") false))]

/-- `_normalize_wealth_disposable` from `app/jobs/runtime.py`. -/
def normalize_wealth_disposable (_cfg : Settings) (_nowYear : Int) (raw : Dict) : Dict :=
  [("force", .bool (as_bool (raw.getP "force") false))]

/-- `_normalize_wealth_age_structure` from `app/jobs/runtime.py`. -/
def normalize_wealth_age_structure (_cfg : Settings) (nowYear : Int) (raw : Dict) : Dict :=
  [("geo_list", .list ((as_geo_list (raw.getP "geo_list")).map .str)),
   ("end_year", .int (normalizeEndYear nowYear (raw.getP "end_year"))),
   ("lookback_years", .int (as_int (raw.getP "lookback_years") 20 5 60)),
   ("force", .bool (as_bool (raw.getP "force") false))]

/-- `_normalize_finance` from `app/jobs/runtime.py`. -/
def normalize_finance (_cfg : Settings) (_nowYear : Int) (raw : Dict) : Dict :=
  [("force", .bool (as_bool (raw.getP "force") false))]

/-- `_normalize_cleanup` from `app/jobs/runtime.py`. -/
def normalize_cleanup (cfg : Settings) (_nowYear : Int) (raw : Dict) : Dict :=
  [("keep_days", .int (as_int (raw.getP "keep_days") cfg.JOB_RETENTION_DAYS 1 365))]

/-- `ALLOWED_INSIGHT_CARD_KEYS` from `app/jobs/runtime.py`. -/
def ALLOWED_INSIGHT_CARD_KEYS : List String := ["trade_flow", "wealth", "finance"]

/-- `ALLOWED_INSIGHT_TAB_KEYS` from `app/jobs/runtime.py`. -/
def ALLOWED_INSIGHT_TAB_KEYS : List String :=
  ["corridors", "wci", "portwatch", "exim", "balance", "gdp_pc", "cons",
   "age", "disp_pc", "disp_hh", "industry", "country"]

/-- `_normalize_generate_homepage_insights` from `app/jobs/runtime.py`. -/
def normalize_generate_homepage_insights (_cfg : Settings) (_nowYear : Int) (raw : Dict) : Dict :=
  let card0 := pyStrip (pyStr (if pyFalsy (raw.getP "card_key") then .str "" else raw.getP "card_key"))
  let card_key := if card0 ∈ ALLOWED_INSIGHT_CARD_KEYS then card0 else ""
  let tabRaw := if pyFalsy (raw.getP "tab_key") then raw.getP "type" else raw.getP "tab_key"
  let tab0 := pyStrip (pyStr (if pyFalsy tabRaw then .str "" else tabRaw))
  let tab_key := if tab0 ∈ ALLOWED_INSIGHT_TAB_KEYS then tab0 else ""
  let lang0 := pyLower (pyStrip (pyStr (if pyFalsy (raw.getP "lang") then .str "en" else raw.getP "lang")))
  let lang := if lang0 = "" then "en" else lang0
  [("lang", .str lang),
   ("geo_list", .list ((as_geo_list (raw.getP "geo_list")).map .str)),
   ("scope", .list ((normalize_scope_list (raw.getP "scope")).map .str)),
   ("card_key", .str card_key),
   ("tab_key", .str tab_key),
   ("force_regen", .bool (as_bool (raw.getP "force_regen") false)),
   ("force_all", .bool (as_bool (raw.getP "force_all") false))]

/-- A naive UTC timestamp (`datetime` with `timezone.utc`); only year-end
dates are ever constructed by the inference code. -/
structure PyDateTime where
  year : Nat
  month : Nat
  day : Nat
  deriving Repr, DecidableEq

/-- `str.isdigit()` (ASCII digits; the periods produced upstream are ASCII). -/
def pyIsDigit (s : String) : Bool :=
  !s.data.isEmpty && s.data.all Char.isDigit

/-- Numeric value of an all-digits string (`int(s)` on such strings). -/
def digitsToNat (s : String) : Nat :=
  s.data.foldl (fun a c => a * 10 + (c.toNat - 48)) 0

/-- `_infer_annual_source_updated_at` from `app/jobs/runtime.py`. -/
def infer_annual_source_updated_at (period : PVal) : Option PyDateTime × String :=
  if pyFalsy period then (none, "source does not declare an as-of date")
  else
    let s := pyStrip (pyStr period)
    if !pyIsDigit s then (none, "unrecognized period format: " ++ s)
    else
      let y := digitsToNat s
      if y < 1900 ∨ y > 2200 then (none, "out-of-range year: " ++ toString y)
      else (some ⟨y, 12, 31⟩, "inferred from annual period year-end")

/-- The latest-non-null-period scan of `_run_trade_exim`
(`app/jobs/runtime.py`, the loop over `reversed(payload.get("series") or [])`). -/
def latestNonNullPeriod (series : List PVal) : PVal :=
  match series.reverse.find? (fun row =>
      !(match objGetP row "export_usd" with | .null => true | _ => false)
      || !(match objGetP row "import_usd" with | .null => true | _ => false)) with
  | some row => objGetP row "period"
  | none => .null

/-- Lexicographic comparison of character lists by code point — the
ordering Python's `sorted` applies to `str` keys. -/
def charListLeb : List Char → List Char → Bool
  | [], _ => true
  | _ :: _, [] => false
  | c :: cs, d :: ds =>
      if c < d then true else if d < c then false else charListLeb cs ds

/-- Key comparison used by `sort_keys=True`. -/
def keyLeb (a b : String) : Bool := charListLeb a.data b.data

/-- Stable insertion sort of dict entries by key, modelling the
`sort_keys=True` ordering of `json.dumps` (Python compares `str` keys by
code points). -/
def insertByKey (p : String × PVal) : List (String × PVal) → List (String × PVal)
  | [] => [p]
  | q :: rest => if keyLeb p.1 q.1 then p :: q :: rest else q :: insertByKey p rest

/-- Sort an association list by key. -/
def sortByKey : List (String × PVal) → List (String × PVal)
  | [] => []
  | p :: rest => insertByKey p (sortByKey rest)

/-- Recursively sort every dictionary in a value by key: the canonical
form whose plain serialization equals `json.dumps(v, sort_keys=True)`. -/
def canon : PVal → PVal
  | .null => .null
  | .bool b => .bool b
  | .int n => .int n
  | .str s => .str s
  | .list xs => .list (xs.attach.map (fun x => canon x.1))
  | .obj kvs => .obj (sortByKey (kvs.attach.map (fun p => (p.1.1, canon p.1.2))))
termination_by v => sizeOf v
decreasing_by
  all_goals simp_wf
  · have := List.sizeOf_lt_of_mem x.2
    omega
  · have h1 := List.sizeOf_lt_of_mem p.2
    have h2 : sizeOf (p.1).2 < sizeOf p.1 := by
      obtain ⟨⟨a, b⟩, hp⟩ := p
      simp
    omega

/-- Four lowercase hex digits, for `\uXXXX` escapes. -/
def hexDigitCh (n : Nat) : Char :=
  if n < 10 then Char.ofNat (48 + n) else Char.ofNat (87 + n)

/-- JSON string escaping as performed by `json.dumps(..., ensure_ascii=False)`. -/
def jsonEscapeChar (c : Char) : List Char :=
  if c = '"' then ['\\', '"']
  else if c = '\\' then ['\\', '\\']
  else if c = '\n' then ['\\', 'n']
  else if c = '\t' then ['\\', 't']
  else if c = '\r' then ['\\', 'r']
  else if c.toNat = 8 then ['\\', 'b']
  else if c.toNat = 12 then ['\\', 'f']
  else if c.toNat < 32 then
    ['\\', 'u', '0', '0', hexDigitCh (c.toNat / 16), hexDigitCh (c.toNat % 16)]
  else [c]

/-- Serialized form of a JSON string literal. -/
def serStr (s : String) : String :=
  ⟨'"' :: (s.data.map jsonEscapeChar).flatten ++ ['"']⟩

mutual
/-- Plain JSON serialization with Python's default separators
(`", "` and `": "`); applied after `canon` it models
`json.dumps(obj, ensure_ascii=False, sort_keys=True)`. -/
def serVal : PVal → String
  | .null => "null"
  | .bool b => if b then "true" else "false"
  | .int n => toString n
  | .str s => serStr s
  | .list xs => "[" ++ serItems xs ++ "]"
  | .obj kvs => "\x7b" ++ serEntries kvs ++ "\x7d"

/-- Comma-separated serialization of array items. -/
def serItems : List PVal → String
  | [] => ""
  | [x] => serVal x
  | x :: y :: rest => serVal x ++ ", " ++ serItems (y :: rest)

/-- Comma-separated serialization of object entries. -/
def serEntries : List (String × PVal) → String
  | [] => ""
  | [(k, v)] => serStr k ++ ": " ++ serVal v
  | (k, v) :: q :: rest => serStr k ++ ": " ++ serVal v ++ ", " ++ serEntries (q :: rest)
end

/-- UTF-8 encoding of one character. -/
def utf8Char (c : Char) : List Nat :=
  let n := c.toNat
  if n < 128 then [n]
  else if n < 2048 then [192 + n / 64, 128 + n % 64]
  else if n < 65536 then [224 + n / 4096, 128 + (n / 64) % 64, 128 + n % 64]
  else [240 + n / 262144, 128 + (n / 4096) % 64, 128 + (n / 64) % 64, 128 + n % 64]

/-- `str.encode("utf-8")` as a byte list. -/
def utf8Bytes (s : String) : List Nat :=
  (s.data.map utf8Char).flatten

/-- Truncation to a 32-bit word. -/
def w32 (n : Nat) : Nat := n % 4294967296

/-- 32-bit right rotation (arguments already reduced mod 2^32). -/
def rotr32 (r x : Nat) : Nat := (x / 2 ^ r) + (x % 2 ^ r) * 2 ^ (32 - r)

/-- Bitwise complement within 32 bits. -/
def bnot32 (x : Nat) : Nat := Nat.xor x 4294967295

/-- SHA-256 `Ch`. -/
def shaCh (x y z : Nat) : Nat := Nat.xor (Nat.land x y) (Nat.land (bnot32 x) z)

/-- SHA-256 `Maj`. -/
def shaMaj (x y z : Nat) : Nat :=
  Nat.xor (Nat.xor (Nat.land x y) (Nat.land x z)) (Nat.land y z)

/-- SHA-256 Σ0. -/
def bigSigma0 (x : Nat) : Nat := Nat.xor (Nat.xor (rotr32 2 x) (rotr32 13 x)) (rotr32 22 x)

/-- SHA-256 Σ1. -/
def bigSigma1 (x : Nat) : Nat := Nat.xor (Nat.xor (rotr32 6 x) (rotr32 11 x)) (rotr32 25 x)

/-- SHA-256 σ0. -/
def smallSigma0 (x : Nat) : Nat := Nat.xor (Nat.xor (rotr32 7 x) (rotr32 18 x)) (x / 8)

/-- SHA-256 σ1. -/
def smallSigma1 (x : Nat) : Nat := Nat.xor (Nat.xor (rotr32 17 x) (rotr32 19 x)) (x / 1024)

/-- The SHA-256 round constants (decimal). -/
def shaK : List Nat :=
  [1116352408, 1899447441, 3049323471, 3921009573, 961987163,
   1508970993, 2453635748, 2870763221, 3624381080, 310598401,
   607225278, 1426881987, 1925078388, 2162078206, 2614888103,
   3248222580, 3835390401, 4022224774, 264347078, 604807628,
   770255983, 1249150122, 1555081692, 1996064986, 2554220882,
   2821834349, 2952996808, 3210313671, 3336571891, 3584528711,
   113926993, 338241895, 666307205, 773529912, 1294757372,
   1396182291, 1695183700, 1986661051, 2177026350, 2456956037,
   2730485921, 2820302411, 3259730800, 3345764771, 3516065817,
   3600352804, 4094571909, 275423344, 430227734, 506948616,
   659060556, 883997877, 958139571, 1322822218, 1537002063,
   1747873779, 1955562222, 2024104815, 2227730452, 2361852424,
   2428436474, 2756734187, 3204031479, 3329325298]

/-- The SHA-256 initial hash value (decimal). -/
def shaH0 : List Nat :=
  [1779033703, 3144134277, 1013904242, 2773480762, 1359893119,
   2600822924, 528734635, 1541459225]

/-- SHA-256 message padding. -/
def shaPad (msg : List Nat) : List Nat :=
  let len := msg.length
  let zeros := (64 + 56 - ((len + 1) % 64)) % 64
  msg ++ [128] ++ List.replicate zeros 0 ++
    (List.range 8).map (fun i => (8 * len) / 2 ^ (8 * (7 - i)) % 256)

/-- Split a byte list into 64-byte blocks. -/
def chunks64 (l : List Nat) : List (List Nat) :=
  if h : l = [] then [] else (l.take 64) :: chunks64 (l.drop 64)
termination_by l.length
decreasing_by
  have : l.length ≠ 0 := fun hl => h (List.eq_nil_of_length_eq_zero hl)
  simp [List.length_drop]
  omega

/-- The 16 big-endian message words of one block. -/
def words16 (block : List Nat) : List Nat :=
  (List.range 16).map (fun i =>
    (block.getD (4 * i) 0) * 16777216 + (block.getD (4 * i + 1) 0) * 65536 +
    (block.getD (4 * i + 2) 0) * 256 + block.getD (4 * i + 3) 0)

/-- The 64-word SHA-256 message schedule. -/
def shaSchedule (block : List Nat) : Array Nat :=
  (List.range 48).foldl (fun w t =>
    let i := t + 16
    w.push (w32 (smallSigma1 (w.getD (i - 2) 0) + w.getD (i - 7) 0 +
                 smallSigma0 (w.getD (i - 15) 0) + w.getD (i - 16) 0)))
    (words16 block).toArray

/-- One SHA-256 compression step. -/
def shaRound (w : Array Nat) (s : Nat × Nat × Nat × Nat × Nat × Nat × Nat × Nat) (t : Nat) :
    Nat × Nat × Nat × Nat × Nat × Nat × Nat × Nat :=
  let (a, b, c, d, e, f, g, h) := s
  let T1 := w32 (h + bigSigma1 e + shaCh e f g + shaK.getD t 0 + w.getD t 0)
  let T2 := w32 (bigSigma0 a + shaMaj a b c)
  (w32 (T1 + T2), a, b, c, w32 (d + T1), e, f, g)

/-- SHA-256 compression of one block. -/
def compressBlock (H : List Nat) (block : List Nat) : List Nat :=
  let w := shaSchedule block
  let init := (H.getD 0 0, H.getD 1 0, H.getD 2 0, H.getD 3 0,
               H.getD 4 0, H.getD 5 0, H.getD 6 0, H.getD 7 0)
  let fin := (List.range 64).foldl (shaRound w) init
  [w32 (H.getD 0 0 + fin.1), w32 (H.getD 1 0 + fin.2.1), w32 (H.getD 2 0 + fin.2.2.1),
   w32 (H.getD 3 0 + fin.2.2.2.1), w32 (H.getD 4 0 + fin.2.2.2.2.1),
   w32 (H.getD 5 0 + fin.2.2.2.2.2.1), w32 (H.getD 6 0 + fin.2.2.2.2.2.2.1),
   w32 (H.getD 7 0 + fin.2.2.2.2.2.2.2)]

/-- The eight 32-bit words of the SHA-256 digest of a byte string. -/
def sha256Words (msg : List Nat) : List Nat :=
  (chunks64 (shaPad msg)).foldl compressBlock shaH0

/-- Big-endian word concatenation: the digest as a single natural number. -/
def combineWords (ws : List Nat) : Nat :=
  ws.foldl (fun acc w => acc * 4294967296 + w % 4294967296) 0

/-- The SHA-256 digest of a byte string as a natural number below `2^256`. -/
def sha256Nat (msg : List Nat) : Nat := combineWords (sha256Words msg)

/-- `hashlib.sha256(...).hexdigest()`: 64 lowercase hex characters. -/
def natToHex64 (n : Nat) : String :=
  ⟨(List.range 64).map (fun i => hexDigitCh (n / 2 ^ (4 * (63 - i)) % 16))⟩

/-- `digest_for_inputs` from `app/jobs/insights_llm.py`:
`hashlib.sha256(json.dumps(obj, ensure_ascii=False, sort_keys=True,
default=str).encode("utf-8")).hexdigest()`. -/
def digest_for_inputs (obj : PVal) : String :=
  natToHex64 (sha256Nat (utf8Bytes (serVal (canon obj))))

/-- A `WidgetSnapshot` row (`app/db/models.py`).  Timestamps are naturals
(milliseconds UTC); `isoformat` is modelled by their decimal rendering,
an injective stand-in that preserves digest determinism. -/
structure SnapshotRow where
  id : Nat
  widget_key : String
  scope : String
  payload : PVal
  source : String
  is_stale : Bool
  fetched_at : Option Nat
  source_updated_at : Option Nat
  deriving Repr

/-- A `WidgetInsight` row (`app/db/models.py`). -/
structure InsightRow where
  card_key : String
  tab_key : String
  scope : String
  lang : String
  content : String
  reference_list : List PVal
  source_updated_at : Option Nat
  data_digest : String
  input_snapshot_keys : List PVal
  llm_provider : String
  llm_model : String
  llm_prompt : String
  llm_error : String
  generated_by : String
  job_run_id : Option Nat
  deriving Repr

/-- `LLMResult` from `app/jobs/insights_llm.py` (the fields `_gen_insight`
reads). -/
structure LLMResultL where
  ok : Bool
  content : String
  references : List PVal
  provider : String
  model : String
  error : Option String
  deriving Repr

/-- Python `x or default` on an optional string (`None` and `""` are falsy). -/
def pyOrStr (o : Option String) (dflt : String) : String :=
  match o with
  | none => dflt
  | some s => if s = "" then dflt else s

/-- Python `x or []` used on display fields. -/
def pyOrEmptyList (v : PVal) : PVal :=
  if pyFalsy v then .list [] else v

/-- Python `float(x)` on the integer-shaped values of this code base
(floating-point payloads do not occur in the modelled flows). -/
def pyFloatCast : PVal → Option Int
  | .bool b => some (if b then 1 else 0)
  | .int n => some n
  | .str s => parseIntChars (pyStrip s).data
  | _ => none

/-- Is the value a Python dict? -/
def isDict : PVal → Bool
  | .obj _ => true
  | _ => false

/-- Is the value `None`? -/
def isNullP : PVal → Bool
  | .null => true
  | _ => false

/-- `_latest_trade_year_row` from `app/jobs/runtime.py`. -/
def latest_trade_year_row (exim_payload : PVal) : PVal :=
  match objGetP exim_payload "series" with
  | .list series =>
      match series.reverse.find? (fun row =>
          isDict row &&
          !(isNullP (objGetP row "export_usd") && isNullP (objGetP row "import_usd"))) with
      | none => .null
      | some row =>
          let exRaw := objGetP row "export_usd"
          let imRaw := objGetP row "import_usd"
          let ex := if isNullP exRaw then none else pyFloatCast exRaw
          let im := if isNullP imRaw then none else pyFloatCast imRaw
          let bal : PVal :=
            if ex.isSome ∨ im.isSome then .int (ex.getD 0 - im.getD 0) else .null
          .obj [("period", objGetP row "period"),
                ("export_usd", match ex with | some v => .int v | none => .null),
                ("import_usd", match im with | some v => .int v | none => .null),
                ("balance_usd", bal)]
  | _ => .null

/-- `_display_data_for_llm` from `app/jobs/runtime.py`. -/
def display_data_for_llm (card_key tab_key scope : String)
    (snapshot_inputs : List SnapshotRow) : PVal :=
  match snapshot_inputs with
  | [] => .obj []
  | s0 :: _ =>
    let payload : PVal := if isDict s0.payload then s0.payload else .obj []
    if card_key = "trade_flow" ∧ tab_key = "corridors" then
      let by_geo := objGetP payload "by_geo"
      let row : PVal :=
        if isDict by_geo then
          let g := objGetP by_geo "Global"
          if isDict g then g else .obj []
        else .obj []
      .obj [("geo", .str "Global"),
            ("period", objGetP row "period"),
            ("value_usd_top", pyOrEmptyList (objGetP row "value_usd_top")),
            ("volume_top", pyOrEmptyList (objGetP row "volume_top")),
            ("export_usd", objGetP row "export_usd"),
            ("import_usd", objGetP row "import_usd"),
            ("trade_balance_usd", objGetP row "trade_balance_usd"),
            ("source", objGetP payload "source"),
            ("updated_at", objGetP payload "updated_at")]
    else if card_key = "trade_flow" ∧ tab_key = "wci" then
      let wci := objGetP payload "wci"
      .obj [("wci", if isDict wci then wci else .obj []),
            ("source", objGetP payload "source"),
            ("updated_at", objGetP payload "updated_at")]
    else if card_key = "trade_flow" ∧ tab_key = "portwatch" then
      let portwatch := objGetP payload "portwatch"
      .obj [("portwatch", if isDict portwatch then portwatch else .obj []),
            ("source", objGetP payload "source"),
            ("updated_at", objGetP payload "updated_at")]
    else if card_key = "trade_flow" ∧ (tab_key = "exim" ∨ tab_key = "balance") then
      .obj [("geo", .str scope),
            ("latest", latest_trade_year_row payload),
            ("series", match objGetP payload "series" with | .list xs => .list xs | _ => .list []),
            ("source", objGetP payload "source"),
            ("frequency", objGetP payload "frequency"),
            ("date", objGetP payload "date")]
    else if card_key = "wealth" ∧ (tab_key = "gdp_pc" ∨ tab_key = "cons") then
      .obj [("geo", .str scope),
            ("series", match objGetP payload "series" with | .list xs => .list xs | _ => .list []),
            ("source", objGetP payload "source"),
            ("frequency", objGetP payload "frequency"),
            ("date", objGetP payload "date")]
    else if card_key = "wealth" ∧ tab_key = "age" then
      .obj [("geo", .str scope),
            ("rows", match objGetP payload "rows" with | .list xs => .list xs | _ => .list []),
            ("source", objGetP payload "source"),
            ("frequency", objGetP payload "frequency"),
            ("period", objGetP payload "period")]
    else if card_key = "wealth" ∧ (tab_key = "disp_pc" ∨ tab_key = "disp_hh") then
      let rows := objGetP payload "rows"
      let row : PVal :=
        if isDict rows then
          let one := objGetP rows scope
          if isDict one then one else .obj []
        else .obj []
      .obj [("geo", .str scope),
            ("row", row),
            ("source", objGetP payload "source"),
            ("link", objGetP payload "link"),
            ("note", .str "latest point only")]
    else if card_key = "finance" ∧ tab_key = "industry" then
      let rows := match objGetP payload "rows" with | .list xs => xs | _ => []
      .obj [("rows_top10", .list (rows.take 10)),
            ("source", objGetP payload "source"),
            ("link", objGetP payload "link"),
            ("unit", objGetP payload "unit"),
            ("currency", objGetP payload "currency")]
    else if card_key = "finance" ∧ tab_key = "country" then
      let rows := match objGetP payload "rows" with | .list xs => xs | _ => []
      .obj [("rows_top10", .list (rows.take 10)),
            ("source", objGetP payload "source"),
            ("link", objGetP payload "link")]
    else
      .obj [("payload", payload)]

/-- `datetime.isoformat()` stand-in on the millisecond clock. -/
def tsIso (n : Nat) : String := toString n

/-- The provenance records built by `_gen_insight` (`input_keys`). -/
def genInsightInputKeys (snapshot_inputs : List SnapshotRow) : List PVal :=
  snapshot_inputs.map (fun s =>
    .obj [("widget_key", .str s.widget_key),
          ("scope", .str s.scope),
          ("snapshot_id", .int s.id),
          ("fetched_at", match s.fetched_at with | some t => .str (tsIso t) | none => .null),
          ("source_updated_at", match s.source_updated_at with | some t => .str (tsIso t) | none => .null)])

/-- The deterministic `input_obj` assembled by `_gen_insight`
(`app/jobs/runtime.py`, lines 701-709). -/
def genInsightInputObj (card_key tab_key scope lang : String)
    (snapshot_inputs : List SnapshotRow) (extra_context : Dict) : PVal :=
  .obj [("card_key", .str card_key),
        ("tab_key", .str tab_key),
        ("scope", .str scope),
        ("lang", .str lang),
        ("display_data", display_data_for_llm card_key tab_key scope snapshot_inputs),
        ("snapshots", .list (snapshot_inputs.map (fun s =>
          .obj [("key", .str s.widget_key), ("scope", .str s.scope), ("payload", s.payload)]))),
        ("extra", .obj extra_context)]

/-- The candidate public URLs gathered by `_gen_insight`. -/
def genInsightPublicUrls (snapshot_inputs : List SnapshotRow) (extra_context : Dict) : List String :=
  let fromSnaps := snapshot_inputs.foldl (fun acc s =>
    match s.payload with
    | .obj kvs =>
        ["link", "url"].foldl (fun acc2 k =>
          match Dict.getP kvs k with
          | .str v => if "http".data.isPrefixOf v.data ∧ v ∉ acc2 then acc2 ++ [v] else acc2
          | _ => acc2) acc
    | _ => acc) []
  extra_context.foldl (fun acc p =>
    match p.2 with
    | .str v => if "http".data.isPrefixOf v.data ∧ v ∉ acc then acc ++ [v] else acc
    | _ => acc) fromSnaps

/-- The serialized user prompt of `_gen_insight`
(`json.dumps({...}, ensure_ascii=False, sort_keys=True, default=str)`). -/
def genInsightUserPrompt (card_key tab_key scope lang : String)
    (snapshot_inputs : List SnapshotRow) (extra_context : Dict) : String :=
  serVal (canon (.obj
    [("task", .str "Generate dashboard Insight"),
     ("audience", .list [.str "economic analysts", .str "executives"]),
     ("card_key", .str card_key),
     ("tab_key", .str tab_key),
     ("scope", .str scope),
     ("constraints", .obj
       [("length", .str "2-4 bullets"),
        ("must_reference_data", .bool true),
        ("must_use_source_updated_at", .bool true),
        ("avoid_job_time", .bool true),
        ("no_fabrication", .bool true),
        ("json_max_chars", .int 1200)]),
     ("inputs", genInsightInputObj card_key tab_key scope lang snapshot_inputs extra_context),
     ("candidate_public_urls", .list ((genInsightPublicUrls snapshot_inputs extra_context).map .str))]))

/-- The freshest `source_updated_at` across the inputs
(max, ignoring nulls), as computed by `_gen_insight`. -/
def freshestSourceUpdatedAt (snapshot_inputs : List SnapshotRow) : Option Nat :=
  snapshot_inputs.foldl (fun acc s =>
    match s.source_updated_at with
    | some t => match acc with
      | none => some t
      | some a => if t > a then some t else some a
    | none => acc) none

/-- `_gen_insight` from `app/jobs/runtime.py` (the Text Generator call is the
collaborator's verdict, passed in as `llm`); returns the `(ok, error)` pair
and the new state of the `widget_insights` table. -/
def gen_insight (llm : LLMResultL) (card_key tab_key scope lang : String)
    (snapshot_inputs : List SnapshotRow) (extra_context : Dict)
    (job_run_id : Option Nat) (insights : List InsightRow) :
    (Bool × Option String) × List InsightRow :=
  let input_keys := genInsightInputKeys snapshot_inputs
  let input_obj := genInsightInputObj card_key tab_key scope lang snapshot_inputs extra_context
  let data_digest := digest_for_inputs input_obj
  let user := genInsightUserPrompt card_key tab_key scope lang snapshot_inputs extra_context
  if !llm.ok then
    ((false, some (pyOrStr llm.error "llm generation failed")), insights)
  else
    let src_at := freshestSourceUpdatedAt snapshot_inputs
    ((true, none), insights ++
      [{ card_key := card_key, tab_key := tab_key, scope := scope, lang := lang,
         content := llm.content, reference_list := llm.references,
         source_updated_at := src_at, data_digest := data_digest,
         input_snapshot_keys := input_keys, llm_provider := llm.provider,
         llm_model := llm.model, llm_prompt := user, llm_error := "",
         generated_by := "llm", job_run_id := job_run_id }])

/-- The outcome of one `_gen_insight` attempt inside
`_run_generate_homepage_insights`: the `f"{card_key}/{tab_key}/{scope}"`
label together with the `(ok, err)` pair returned by `_gen_insight`. -/
structure GenOutcome where
  label : String
  ok : Bool
  err : Option String
  deriving Repr

/-- The failure strings accumulated in `llm_failed`. -/
def llmFailedMsgs (attempts : List GenOutcome) : List String :=
  (attempts.filter (fun a => !a.ok)).map
    (fun a => a.label ++ ": " ++ pyOrStr a.err "llm generation failed")

/-- The outcome accounting of `_run_generate_homepage_insights`
(`app/jobs/runtime.py`, lines 1092-1108): raises iff at least one
generation was attempted and every attempt failed; otherwise returns the
summary message.  `attempts` is the sequence of `_gen_insight` outcomes of
the run, `added` the change in stored llm-generated rows, and
`purged_non_llm` the count of purged non-generator rows. -/
def run_generate_homepage_insights (attempts : List GenOutcome)
    (added : Int) (purged_non_llm : Nat) : Except String String :=
  let llm_attempted := attempts.length
  let llm_failed := llmFailedMsgs attempts
  if llm_attempted > 0 ∧ llm_failed.length = llm_attempted then
    .error ("all LLM insight generations failed: " ++
      String.intercalate " | " (llm_failed.take 5))
  else
    let msg := "homepage insights saved: +" ++ toString added ++
      ", attempted=" ++ toString llm_attempted ++
      ", failed=" ++ toString llm_failed.length ++
      ", purged_non_llm=" ++ toString purged_non_llm
    .ok (if llm_failed.isEmpty then msg else msg ++ " (partial llm failures logged)")

/-- A `JobDefinition` row (`app/db/models.py`). -/
structure JobDefRow where
  job_id : String
  name : String
  description : String
  cron_expr : String
  timezone : String
  enabled : Bool
  default_params : Dict
  last_scheduled_at : Option Nat := none
  last_success_at : Option Nat := none
  deriving Repr

/-- A `JobRun` row (`app/db/models.py`). -/
structure JobRunRow where
  id : Nat
  job_id : String
  status : String
  triggered_by : String
  params : Dict
  message : String
  error : Option String
  started_at : Nat
  finished_at : Option Nat
  duration_ms : Option Nat
  deriving Repr

/-- The relational store as seen by the job runtime. -/
structure DBState where
  jobDefs : List JobDefRow
  jobRuns : List JobRunRow
  nextRunId : Nat
  deriving Repr

/-- Process state: the per-job lock table (`_LOCKS`; a `job_id` is listed
while its lock is held) plus the store. -/
structure SysState where
  locks : List String
  db : DBState
  deriving Repr

/-- Observable run-ledger and lock events of one `run_job_now` call. -/
inductive RunEvent where
  | lockAcquired (job_id : String)
  | lockReleased (job_id : String)
  | runRowCreated (id : Nat) (status : String)
  | runRowFinalized (id : Nat) (status : String)
  deriving Repr, DecidableEq

/-- A `JobSpec` entry of the static `JOB_SPECS` table (the runner body is
supplied separately, as the collaborator outcome of executing it). -/
structure JobSpecL where
  job_id : String
  name : String
  description : String
  cron_expr : String
  timezone : String
  default_params : Dict
  normalize : Settings → Int → Dict → Dict

/-- `DEFAULT_CRON_EVERY_10_MIN` from `app/jobs/runtime.py`. -/
def DEFAULT_CRON_EVERY_10_MIN : String := "*/10 * * * *"

/-- The static `JOB_SPECS` table from `app/jobs/runtime.py`, in its
insertion order. -/
def JOB_SPECS (cfg : Settings) : List JobSpecL :=
  [{ job_id := "generate_homepage_insights", name := "Generate Homepage Insights",
     description := "Generate Insights text for homepage cards/tabs and save to DB.",
     cron_expr := "0 7 * * *", timezone := cfg.TZ, default_params := [],
     normalize := normalize_generate_homepage_insights },
   { job_id := "trade_corridors", name := "Trade Corridors Snapshot",
     description := "Refresh trade corridors summary (includes WCI extraction).",
     cron_expr := DEFAULT_CRON_EVERY_10_MIN, timezone := cfg.TZ,
     default_params := [("force_wci", .bool false)],
     normalize := normalize_trade_corridors },
   { job_id := "trade_exim_5y", name := "Trade Exim 5Y by Geo",
     description := "Refresh export/import series from World Bank WDI for configured geos.",
     cron_expr := DEFAULT_CRON_EVERY_10_MIN, timezone := cfg.TZ,
     default_params := [("geo_list", .list (ALLOWED_GEOS.map .str)), ("years", .int 5),
                        ("end_year", .null), ("force", .bool false)],
     normalize := normalize_trade_exim },
   { job_id := "wealth_indicators_5y", name := "Wealth Indicators 5Y by Geo",
     description := "Refresh GDP per capita and consumption 5Y series for configured geos.",
     cron_expr := DEFAULT_CRON_EVERY_10_MIN, timezone := cfg.TZ,
     default_params := [("geo_list", .list (ALLOWED_GEOS.map .str)), ("years", .int 5),
                        ("end_year", .null), ("force", .bool false)],
     normalize := normalize_wealth_indicators },
   { job_id := "wealth_disposable_latest", name := "Disposable Income Latest",
     description := "Refresh latest disposable-income-like snapshot from WPR with WB fallback.",
     cron_expr := DEFAULT_CRON_EVERY_10_MIN, timezone := cfg.TZ,
     default_params := [("force", .bool false)],
     normalize := normalize_wealth_disposable },
   { job_id := "wealth_age_structure_latest", name := "Age Structure Latest",
     description := "Refresh latest age-structure (% population) snapshot from World Bank WDI.",
     cron_expr := DEFAULT_CRON_EVERY_10_MIN, timezone := cfg.TZ,
     default_params := [("geo_list", .list (ALLOWED_GEOS.map .str)), ("end_year", .null),
                        ("lookback_years", .int 20), ("force", .bool false)],
     normalize := normalize_wealth_age_structure },
   { job_id := "finance_ma_industry", name := "Finance M&A by Industry",
     description := "Refresh IMAA industry ranking snapshot.",
     cron_expr := DEFAULT_CRON_EVERY_10_MIN, timezone := cfg.TZ,
     default_params := [("force", .bool false)],
     normalize := normalize_finance },
   { job_id := "finance_ma_country", name := "Finance M&A by Country",
     description := "Refresh IMAA country snapshot.",
     cron_expr := DEFAULT_CRON_EVERY_10_MIN, timezone := cfg.TZ,
     default_params := [("force", .bool false)],
     normalize := normalize_finance },
   { job_id := "cleanup_snapshots", name := "Cleanup Snapshots",
     description := "Delete snapshot and run logs older than configured retention days.",
     cron_expr := DEFAULT_CRON_EVERY_10_MIN, timezone := cfg.TZ,
     default_params := [("keep_days", .int cfg.JOB_RETENTION_DAYS)],
     normalize := normalize_cleanup }]

/-- `JOB_SPECS[job_id]` dictionary lookup. -/
def jobSpec? (cfg : Settings) (job_id : String) : Option JobSpecL :=
  (JOB_SPECS cfg).find? (fun sp => sp.job_id == job_id)

/-- `JOB_RUN_BY` from `app/jobs/runtime.py`. -/
def JOB_RUN_BY : List String := ["scheduler", "manual", "startup", "api"]

/-- Insert a `JobDefinition` row for a spec if absent (one step of
`_seed_job_definitions`). -/
def insertDefIfAbsent (db : DBState) (sp : JobSpecL) : DBState :=
  if db.jobDefs.any (fun r => r.job_id == sp.job_id) then db
  else { db with jobDefs := db.jobDefs ++
    [{ job_id := sp.job_id, name := sp.name, description := sp.description,
       cron_expr := sp.cron_expr, timezone := sp.timezone, enabled := true,
       default_params := sp.default_params }] }

/-- `_seed_job_definitions` from `app/jobs/runtime.py`. -/
def seed_job_definitions (cfg : Settings) (db : DBState) : DBState :=
  (JOB_SPECS cfg).foldl insertDefIfAbsent db

/-- The result dictionary returned by `run_job_now`. -/
structure RunResult where
  ok : Bool
  job_id : String
  run_id : Option Nat := none
  status : String
  message : String := ""
  error : Option String := none
  deriving Repr, DecidableEq

/-- The `running` row inserted the instant the lock is acquired and
parameters are resolved. -/
def runningRow (job_id tb : String) (params : Dict) (rid t0 : Nat) : JobRunRow :=
  { id := rid, job_id := job_id, status := "running", triggered_by := tb, params := params,
    message := "", error := none, started_at := t0, finished_at := none, duration_ms := none }

/-- Terminal status of a job-body outcome: `success` on return, `failed`
on a caught exception. -/
def statusOf : Except String String → String
  | .ok _ => "success"
  | .error _ => "failed"

/-- Run message of a job-body outcome (the return value, or "job failed"). -/
def messageOf : Except String String → String
  | .ok m => m
  | .error _ => "job failed"

/-- Captured error text of a job-body outcome. -/
def errorOf : Except String String → Option String
  | .ok _ => none
  | .error e => some e

/-- The tail of the locked section of `run_job_now`: open the `running`
row, record the outcome, finalize the row (status, message, error, finish
time, duration), update the definition timestamps, release the lock and
return the result dictionary.  `outcome` is the job body's verdict on the
normalized parameters. -/
def runLockedFinish (job_id tb : String) (params : Dict) (t0 elapsed : Nat)
    (outcome : Except String String) (db1 : DBState) (locks : List String) :
    Except String RunResult × SysState × List RunEvent :=
  let rid := db1.nextRunId
  let st := statusOf outcome
  let msg := messageOf outcome
  let err := errorOf outcome
  let finished := t0 + elapsed
  let db2 : DBState :=
    { jobRuns := db1.jobRuns ++ [runningRow job_id tb params rid t0],
      nextRunId := rid + 1,
      jobDefs := db1.jobDefs.map (fun r =>
        if r.job_id == job_id then { r with last_scheduled_at := some t0 } else r) }
  let db3 : DBState :=
    { db2 with
      jobRuns := db2.jobRuns.map (fun r =>
        if r.id == rid then
          { r with
            status := st,
            message := msg,
            error := err,
            finished_at := some finished,
            duration_ms := some (finished - t0) }
        else r),
      jobDefs := if st = "success" then
          db2.jobDefs.map (fun r =>
            if r.job_id == job_id then { r with last_success_at := some finished } else r)
        else db2.jobDefs }
  (.ok { ok := st == "success", job_id := job_id, run_id := some rid,
         status := st, message := msg, error := err },
   { locks := locks.erase job_id, db := db3 },
   [.runRowCreated rid "running", .runRowFinalized rid st, .lockReleased job_id])

/-- The locked section of `run_job_now` (`app/jobs/runtime.py`, the body of
the `try` after a successful `lock.acquire`): seed the registry, load the
definition, merge and normalize parameters, then hand over to
`runLockedFinish`.  `t0` is the wall clock at `started` and `elapsed` the
milliseconds the body consumed; `body` maps the normalized parameters to
the job body's outcome (`.ok message` for a return, `.error text` for a
raise). -/
def runLocked (cfg : Settings) (nowYear : Int) (t0 elapsed : Nat)
    (job_id : String) (params_override : Option Dict) (tb : String)
    (body : Dict → Except String String) (s : SysState) :
    Except String RunResult × SysState × List RunEvent :=
  match jobSpec? cfg job_id with
  | none =>
      (.error ("unknown job spec: " ++ job_id),
       { locks := s.locks.erase job_id, db := seed_job_definitions cfg s.db },
       [.lockReleased job_id])
  | some spec =>
    match (seed_job_definitions cfg s.db).jobDefs.find? (fun r => r.job_id == job_id) with
    | none =>
        (.error ("job definition not found: " ++ job_id),
         { locks := s.locks.erase job_id, db := seed_job_definitions cfg s.db },
         [.lockReleased job_id])
    | some job_def =>
      let params := spec.normalize cfg nowYear
        (dictUpdate job_def.default_params (params_override.getD []))
      runLockedFinish job_id tb params t0 elapsed (body params)
        (seed_job_definitions cfg s.db) s.locks

/-- `run_job_now` from `app/jobs/runtime.py`.  The propagating-exception
path (a missing definition after seeding) is the `Except.error` case. -/
def run_job_now (cfg : Settings) (nowYear : Int) (t0 elapsed : Nat)
    (job_id : String) (params_override : Option Dict) (triggered_by : String)
    (body : Dict → Except String String) (s : SysState) :
    Except String RunResult × SysState × List RunEvent :=
  if (jobSpec? cfg job_id).isNone then
    (.ok { ok := false, job_id := job_id, status := "failed", error := some "unknown job" }, s, [])
  else if !cfg.JOBS_ENABLED then
    (.ok { ok := false, job_id := job_id, status := "skipped",
           message := "jobs are disabled by JOBS_ENABLED=false" }, s, [])
  else
    let tb := if triggered_by ∈ JOB_RUN_BY then triggered_by else "manual"
    if job_id ∈ s.locks then
      (.ok { ok := false, job_id := job_id, status := "skipped",
             message := "job is already running" }, s, [])
    else
      let s1 : SysState := { s with locks := job_id :: s.locks }
      let (r, s2, ev) := runLocked cfg nowYear t0 elapsed job_id params_override tb body s1
      (r, s2, .lockAcquired job_id :: ev)

/-- `update_job_definition` from `app/jobs/runtime.py`.  Cron/timezone
validation (`CronTrigger.from_crontab`) belongs to the external scheduling
library and is supplied as the collaborator verdict `cronValid`; the
scheduler-reload side effect is outside the store model. -/
def update_job_definition (cfg : Settings) (nowYear : Int) (db : DBState)
    (job_id cron_expr timezone_name : String) (enabled : Bool)
    (default_params : Dict) (cronValid : String → String → Bool) :
    (Bool × String) × DBState :=
  match db.jobDefs.find? (fun r => r.job_id == job_id) with
  | none => ((false, "job not found"), db)
  | some _ =>
    match jobSpec? cfg job_id with
    | none => ((false, "unknown job"), db)
    | some spec =>
      let ce := pyStrip cron_expr
      let tzStripped := pyStrip timezone_name
      let tz := if tzStripped = "" then cfg.TZ else tzStripped
      if !cronValid ce tz then ((false, "invalid cron/timezone: error"), db)
      else
        let normalized := spec.normalize cfg nowYear default_params
        ((true, "updated"),
         { db with jobDefs := db.jobDefs.map (fun r =>
             if r.job_id == job_id then
               { r with
                 cron_expr := ce,
                 timezone := tz,
                 enabled := enabled,
                 default_params := normalized }
             else r) })

/-- A geography produced by the canonical-map lookup is allow-listed. -/
lemma canonGeo_mem {k g : String} (h : canonGeo k = some g) : g ∈ ALLOWED_GEOS :=
  List.mem_of_find?_eq_some h

/-- Every geography accumulated by `_as_geo_list`'s loop is allow-listed. -/
lemma geoCollect_mem :
    ∀ (items out : List String), (∀ g ∈ out, g ∈ ALLOWED_GEOS) →
      ∀ g ∈ geoCollect items out, g ∈ ALLOWED_GEOS := by
  intro items
  induction items with
  | nil => intro out h g hg; exact h g hg
  | cons raw rest ih =>
    intro out h g hg
    simp only [geoCollect] at hg
    cases hc : canonGeo (pyLower raw) with
    | none => rw [hc] at hg; exact ih out h g hg
    | some geo =>
      rw [hc] at hg
      dsimp only at hg
      by_cases hm : geo ∈ out
      · rw [if_pos hm] at hg; exact ih out h g hg
      · rw [if_neg hm] at hg
        refine ih (out ++ [geo]) ?_ g hg
        intro g2 hg2
        rcases List.mem_append.mp hg2 with h1 | h1
        · exact h g2 h1
        · rcases List.mem_singleton.mp h1 with rfl
          exact canonGeo_mem hc

/-- Every geography returned by `_as_geo_list` is allow-listed. -/
lemma as_geo_list_mem (v : PVal) : ∀ g ∈ as_geo_list v, g ∈ ALLOWED_GEOS := by
  have hfrom : ∀ items, ∀ g ∈ geoFromItems items, g ∈ ALLOWED_GEOS := by
    intro items g hg
    unfold geoFromItems at hg
    by_cases he : (geoCollect items []).isEmpty
    · rw [if_pos he] at hg; exact hg
    · rw [if_neg he] at hg
      exact geoCollect_mem items [] (by intro g2 hg2; cases hg2) g hg
  cases v with
  | null => intro g hg; exact hg
  | str s => intro g hg; exact hfrom _ g hg
  | list xs => intro g hg; exact hfrom _ g hg
  | bool b => intro g hg; exact hg
  | int n => intro g hg; exact hg
  | obj kvs => intro g hg; exact hg

/-- `_as_int` output lies within its bounds whenever the default does. -/
lemma as_int_clamped (v : PVal) (d lo hi : Int) (h1 : lo ≤ d) (h2 : d ≤ hi) :
    lo ≤ as_int v d lo hi ∧ as_int v d lo hi ≤ hi := by
  unfold as_int
  cases pyIntCast v with
  | none => exact ⟨h1, h2⟩
  | some iv =>
    dsimp only
    split_ifs with ha hb <;> omega

/-- C6: every parameter normalizer clamps numeric fields and restricts
geography lists to the allow-list: `{years: 999}` normalizes to the
maximum 20; a `geo_list` of only unknown names yields the full default
geography list; no unknown geography is ever accepted; and `_as_int`
always stays within `[lo, hi]` when its default does. -/
theorem c6_param_clamping :
    (∀ cfg nowYear,
      (normalize_trade_exim cfg nowYear [("years", .int 999)]).getP "years" = .int 20) ∧
    (∀ cfg nowYear,
      (normalize_trade_exim cfg nowYear [("geo_list", .str "Mars")]).getP "geo_list"
        = .list (ALLOWED_GEOS.map .str)) ∧
    (as_geo_list (.list [.str "Mars"]) = ALLOWED_GEOS) ∧
    (∀ v g, g ∈ as_geo_list v → g ∈ ALLOWED_GEOS) ∧
    (∀ v d lo hi, lo ≤ d → d ≤ hi → lo ≤ as_int v d lo hi ∧ as_int v d lo hi ≤ hi) := by
  refine ⟨fun _ _ => rfl, fun _ _ => rfl, rfl, ?_, ?_⟩
  · intro v g hg; exact as_geo_list_mem v g hg
  · intro v d lo hi h1 h2; exact as_int_clamped v d lo hi h1 h2

/-- C6 witness: the geography-membership and clamping conjuncts at
concrete inputs. -/
theorem c6_param_clamping_witness :
    ("India" ∈ as_geo_list (.str "india, Mars") → "India" ∈ ALLOWED_GEOS) ∧
    ((2 : Int) ≤ 5 ∧ (5 : Int) ≤ 20 ∧
      (2 ≤ as_int (.int 999) 5 2 20 ∧ as_int (.int 999) 5 2 20 ≤ 20)) :=
  ⟨fun h => c6_param_clamping.2.2.2.1 _ "India" h,
   by decide, by decide,
   c6_param_clamping.2.2.2.2 (.int 999) 5 2 20 (by decide) (by decide)⟩

/-- Appending after distinct-headed literals yields distinct strings. -/
lemma append_ne_of_head_ne (c d : Char) (cs ds : List Char) (s t : String)
    (h : c ≠ d) : (⟨c :: cs⟩ : String) ++ s ≠ (⟨d :: ds⟩ : String) ++ t := by
  intro he
  have hd2 : ((⟨c :: cs⟩ : String) ++ s).data.head? = ((⟨d :: ds⟩ : String) ++ t).data.head? :=
    congrArg (fun x : String => x.data.head?) he
  rw [String.data_append, String.data_append] at hd2
  simp only [String.data] at hd2
  rw [List.cons_append, List.cons_append] at hd2
  simp only [List.head?_cons, Option.some.injEq] at hd2
  exact h hd2

/-- A concrete five-row annual series with a trailing all-null row,
matching the end-to-end scenario of the specification. -/
def demoEximSeries : List PVal :=
  [.obj [("period", .str "2021"), ("export_usd", .int 101), ("import_usd", .int 91)],
   .obj [("period", .str "2022"), ("export_usd", .int 104), ("import_usd", .int 95)],
   .obj [("period", .str "2023"), ("export_usd", .int 109), ("import_usd", .int 99)],
   .obj [("period", .str "2024"), ("export_usd", .int 120), ("import_usd", .null)],
   .obj [("period", .str "2025"), ("export_usd", .null), ("import_usd", .null)]]

/-- C7: for annual series, `_infer_annual_source_updated_at` maps a
year-only period in plausible range to December 31 of that year (UTC) with
an explanatory note; a missing period, an unrecognized format and an
out-of-range year each yield `null` with pairwise-distinct notes; and the
latest non-null period "2024" of the demo series yields Dec 31, 2024. -/
theorem c7_annual_source_inference :
    (∀ s : String, pyIsDigit (pyStrip s) = true →
        1900 ≤ digitsToNat (pyStrip s) → digitsToNat (pyStrip s) ≤ 2200 →
        infer_annual_source_updated_at (.str s)
          = (some ⟨digitsToNat (pyStrip s), 12, 31⟩, "inferred from annual period year-end")) ∧
    (infer_annual_source_updated_at .null = (none, "source does not declare an as-of date")) ∧
    (∀ s : String, s ≠ "" → pyIsDigit (pyStrip s) = false →
        infer_annual_source_updated_at (.str s)
          = (none, "unrecognized period format: " ++ pyStrip s)) ∧
    (∀ s : String, s ≠ "" → pyIsDigit (pyStrip s) = true →
        (digitsToNat (pyStrip s) < 1900 ∨ digitsToNat (pyStrip s) > 2200) →
        infer_annual_source_updated_at (.str s)
          = (none, "out-of-range year: " ++ toString (digitsToNat (pyStrip s)))) ∧
    (∀ s t : String,
        "unrecognized period format: " ++ s ≠ "out-of-range year: " ++ t) ∧
    (∀ s : String,
        ∀ t : String, "unrecognized period format: " ++ s ≠
          "source does not declare an as-of date" ++ t) ∧
    (∀ s : String,
        ∀ t : String, "out-of-range year: " ++ s ≠
          "source does not declare an as-of date" ++ t) ∧
    (infer_annual_source_updated_at (latestNonNullPeriod demoEximSeries)
        = (some ⟨2024, 12, 31⟩, "inferred from annual period year-end")) := by
  have hne : ∀ s : String, pyIsDigit (pyStrip s) = true → s ≠ "" := by
    intro s hd he
    subst he
    simp [pyStrip, pyIsDigit] at hd
  have hfalsy : ∀ s : String, s ≠ "" → pyFalsy (.str s) = false := by
    intro s hs
    simp [pyFalsy, hs]
  refine ⟨?_, rfl, ?_, ?_, ?_, ?_, ?_, ?_⟩
  · intro s hd h1 h2
    unfold infer_annual_source_updated_at
    rw [hfalsy s (hne s hd), if_neg (by simp)]
    dsimp only [pyStr]
    rw [hd]
    simp only [Bool.not_true, Bool.false_eq_true, if_false]
    rw [if_neg (by omega)]
  · intro s hs hd
    unfold infer_annual_source_updated_at
    rw [hfalsy s hs, if_neg (by simp)]
    dsimp only [pyStr]
    rw [hd]
    simp only [Bool.not_false, if_true]
  · intro s hs hd hy
    unfold infer_annual_source_updated_at
    rw [hfalsy s hs, if_neg (by simp)]
    dsimp only [pyStr]
    rw [hd]
    simp only [Bool.not_true, Bool.false_eq_true, if_false]
    rw [if_pos (by omega)]
  · intro s t
    exact append_ne_of_head_ne 'u' 'o' _ _ s t (by decide)
  · intro s t
    exact append_ne_of_head_ne 'u' 's' _ _ s t (by decide)
  · intro s t
    exact append_ne_of_head_ne 'o' 's' _ _ s t (by decide)
  · rfl

/-- C7 witness: the inference conjuncts applied at the concrete periods
"2024", "20x4" and "2500". -/
theorem c7_annual_source_inference_witness :
    (pyIsDigit (pyStrip "2024") = true ∧
      infer_annual_source_updated_at (.str "2024")
        = (some ⟨2024, 12, 31⟩, "inferred from annual period year-end")) ∧
    infer_annual_source_updated_at (.str "20x4")
      = (none, "unrecognized period format: 20x4") ∧
    infer_annual_source_updated_at (.str "2500")
      = (none, "out-of-range year: 2500") := by
  refine ⟨⟨rfl, ?_⟩, ?_, ?_⟩
  · have h := c7_annual_source_inference.1 "2024" rfl (by decide) (by decide)
    exact h
  · have h := c7_annual_source_inference.2.2.1 "20x4" (by decide) rfl
    exact h
  · have h := c7_annual_source_inference.2.2.2.1 "2500" (by decide) rfl (by decide)
    exact h

/-- C4: whenever the Text Generator reports failure, `_gen_insight`
returns `(false, errorMessage)` (the generator's error, or the default
"llm generation failed") and persists no `WidgetInsight` row: the table
is returned unchanged. -/
theorem c4_no_persist_on_failure (llm : LLMResultL) (card_key tab_key scope lang : String)
    (snapshot_inputs : List SnapshotRow) (extra_context : Dict) (job_run_id : Option Nat)
    (insights : List InsightRow) (h : llm.ok = false) :
    gen_insight llm card_key tab_key scope lang snapshot_inputs extra_context job_run_id insights
      = ((false, some (pyOrStr llm.error "llm generation failed")), insights) := by
  unfold gen_insight
  rw [h]
  rfl

/-- C4 witness: a concrete failing generator result leaves a one-row table
unchanged and surfaces the collaborator error verbatim. -/
theorem c4_no_persist_on_failure_witness :
    (LLMResultL.mk false "" [] "openai" "gpt-4o-mini" (some "http 500 server error")).ok = false ∧
    gen_insight (LLMResultL.mk false "" [] "openai" "gpt-4o-mini" (some "http 500 server error"))
        "trade_flow" "exim" "India" "en" [] [] none []
      = ((false, some "http 500 server error"), []) := by
  refine ⟨rfl, ?_⟩
  rw [c4_no_persist_on_failure _ "trade_flow" "exim" "India" "en" [] [] none [] rfl]
  rfl

/-- The digest of the most recent stored row for a panel key, i.e. the
last matching row of the append-only `widget_insights` table. -/
def latestDigestFor (insights : List InsightRow) (card_key tab_key scope lang : String) :
    Option String :=
  match insights.reverse.find? (fun r =>
      r.card_key == card_key && r.tab_key == tab_key && r.scope == scope && r.lang == lang) with
  | some r => some r.data_digest
  | none => none

/-- The statement of claim C1 over the embedding: a new row appears only
if the computed digest differs from the most recent stored digest for the
same `(card_key, tab_key, scope, lang)`, or regeneration was forced. -/
def C1Statement : Prop :=
  ∀ (llm : LLMResultL) (card_key tab_key scope lang : String)
    (snapshot_inputs : List SnapshotRow) (extra_context : Dict)
    (job_run_id : Option Nat) (insights : List InsightRow),
    (gen_insight llm card_key tab_key scope lang snapshot_inputs extra_context
        job_run_id insights).2.length > insights.length →
    as_bool (extra_context.getP "force_regen") false = true ∨
    some (digest_for_inputs
        (genInsightInputObj card_key tab_key scope lang snapshot_inputs extra_context))
      ≠ latestDigestFor insights card_key tab_key scope lang

/-- A successful generator verdict used to exercise the write path. -/
def demoLLMOk : LLMResultL :=
  { ok := true, content := "Trade remains stable.", references := [],
    provider := "openai", model := "gpt-4o-mini", error := none }

/-- A stored insight row whose digest already equals the digest
`_gen_insight` recomputes for the identical inputs. -/
def demoStoredInsight : InsightRow :=
  { card_key := "trade_flow", tab_key := "exim", scope := "India", lang := "en",
    content := "Trade remains stable.", reference_list := [],
    source_updated_at := none,
    data_digest := digest_for_inputs (genInsightInputObj "trade_flow" "exim" "India" "en" [] []),
    input_snapshot_keys := [], llm_provider := "openai", llm_model := "gpt-4o-mini",
    llm_prompt := "", llm_error := "", generated_by := "llm", job_run_id := none }

/-- C1 counterexample: rerunning a successful generation on unchanged
inputs (same digest, `force_regen` absent) still appends a new row, so the
digest-dedup invariant fails on the code: the redesigned flow never
compares the digest against the stored one. -/
theorem c1_digest_dedup_counterexample : ¬ C1Statement := by
  intro h
  have hcall := h demoLLMOk "trade_flow" "exim" "India" "en" [] [] none [demoStoredInsight]
      (by rw [show (gen_insight demoLLMOk "trade_flow" "exim" "India" "en" [] [] none
        [demoStoredInsight]).2 = [demoStoredInsight] ++ [_] from rfl]; simp)
  rcases hcall with hforce | hdig
  · simp [Dict.getP, as_bool] at hforce
  · exact hdig rfl

/-- C1 amended: on every successful generation `_gen_insight` appends
exactly one new `WidgetInsight` row carrying the computed digest,
regardless of any previously stored digest; on failure it appends
nothing; and previously stored rows are never modified (append-only). -/
theorem c1_insight_append_only (llm : LLMResultL) (card_key tab_key scope lang : String)
    (snapshot_inputs : List SnapshotRow) (extra_context : Dict) (job_run_id : Option Nat)
    (insights : List InsightRow) :
    let out := (gen_insight llm card_key tab_key scope lang snapshot_inputs extra_context
        job_run_id insights).2
    out.take insights.length = insights ∧
    (llm.ok = true →
      out.length = insights.length + 1 ∧
      (out.getLast? >>= fun r => some r.data_digest)
        = some (digest_for_inputs
            (genInsightInputObj card_key tab_key scope lang snapshot_inputs extra_context))) ∧
    (llm.ok = false → out = insights) := by
  intro out
  by_cases hok : llm.ok = true
  · have hout : out = insights ++
        [{ card_key := card_key, tab_key := tab_key, scope := scope, lang := lang,
           content := llm.content, reference_list := llm.references,
           source_updated_at := freshestSourceUpdatedAt snapshot_inputs,
           data_digest := digest_for_inputs
             (genInsightInputObj card_key tab_key scope lang snapshot_inputs extra_context),
           input_snapshot_keys := genInsightInputKeys snapshot_inputs,
           llm_provider := llm.provider, llm_model := llm.model,
           llm_prompt := genInsightUserPrompt card_key tab_key scope lang
             snapshot_inputs extra_context,
           llm_error := "", generated_by := "llm", job_run_id := job_run_id }] := by
      show (gen_insight llm card_key tab_key scope lang snapshot_inputs extra_context
        job_run_id insights).2 = _
      unfold gen_insight
      rw [hok]
      rfl
    refine ⟨?_, fun _ => ⟨?_, ?_⟩, fun hcon => absurd hok (by simp [hcon])⟩
    · rw [hout]; exact List.take_left insights _
    · rw [hout]; simp
    · rw [hout]; simp
  · have hokf : llm.ok = false := by
      cases hll : llm.ok
      · rfl
      · exact absurd hll hok
    have hout : out = insights := by
      show (gen_insight llm card_key tab_key scope lang snapshot_inputs extra_context
        job_run_id insights).2 = _
      unfold gen_insight
      rw [hokf]
      rfl
    exact ⟨by rw [hout]; exact List.take_length insights,
      fun hcon => absurd hcon hok, fun _ => hout⟩

/-- C1 amended witness: the append-only characterization at a concrete
successful generation over an empty table. -/
theorem c1_insight_append_only_witness :
    demoLLMOk.ok = true ∧
    ((gen_insight demoLLMOk "trade_flow" "exim" "India" "en" [] [] none []).2.length = 0 + 1) := by
  refine ⟨rfl, ?_⟩
  have h := (c1_insight_append_only demoLLMOk "trade_flow" "exim" "India" "en" [] [] none []).2.1 rfl
  exact h.1

/-- Registry seeding never touches the run ledger. -/
lemma foldl_insertDef_jobRuns :
    ∀ (l : List JobSpecL) (db : DBState), (l.foldl insertDefIfAbsent db).jobRuns = db.jobRuns := by
  intro l
  induction l with
  | nil => intro db; rfl
  | cons sp rest ih =>
    intro db
    rw [List.foldl_cons, ih]
    unfold insertDefIfAbsent
    split <;> rfl

/-- Registry seeding never touches the run-id counter. -/
lemma foldl_insertDef_nextRunId :
    ∀ (l : List JobSpecL) (db : DBState), (l.foldl insertDefIfAbsent db).nextRunId = db.nextRunId := by
  intro l
  induction l with
  | nil => intro db; rfl
  | cons sp rest ih =>
    intro db
    rw [List.foldl_cons, ih]
    unfold insertDefIfAbsent
    split <;> rfl

/-- Rows already present survive one seeding step. -/
lemma insertDef_preserves_mem (db : DBState) (sp : JobSpecL) (r : JobDefRow)
    (h : r ∈ db.jobDefs) : r ∈ (insertDefIfAbsent db sp).jobDefs := by
  unfold insertDefIfAbsent
  split
  · exact h
  · exact List.mem_append_left _ h

/-- After folding the spec table into the registry, every spec id owns a
definition row. -/
lemma foldl_insertDef_has (job_id : String) :
    ∀ (l : List JobSpecL) (db : DBState),
      ((∃ sp ∈ l, sp.job_id = job_id) ∨ ∃ r ∈ db.jobDefs, r.job_id = job_id) →
      ∃ r ∈ (l.foldl insertDefIfAbsent db).jobDefs, r.job_id = job_id := by
  intro l
  induction l with
  | nil =>
    intro db h
    rcases h with ⟨sp, hsp, _⟩ | h
    · cases hsp
    · exact h
  | cons sp rest ih =>
    intro db h
    rw [List.foldl_cons]
    apply ih
    rcases h with ⟨sp', hsp', hid⟩ | ⟨r, hr, hid⟩
    · rcases List.mem_cons.mp hsp' with rfl | hmem
      · right
        unfold insertDefIfAbsent
        by_cases hany : db.jobDefs.any (fun r => r.job_id == sp'.job_id)
        · rw [if_pos hany]
          obtain ⟨r, hr, hrid⟩ := List.any_eq_true.mp hany
          exact ⟨r, hr, by rw [← hid]; exact (beq_iff_eq.mp hrid)⟩
        · rw [if_neg hany]
          exact ⟨_, List.mem_append_right _ (List.mem_singleton_self _), hid⟩
      · left; exact ⟨sp', hmem, hid⟩
    · right; exact ⟨r, insertDef_preserves_mem db sp r hr, hid⟩

/-- After seeding, looking a known job's definition up succeeds. -/
lemma seed_find_some (cfg : Settings) (db : DBState) (job_id : String)
    (h : (jobSpec? cfg job_id).isSome) :
    ∃ jd, (seed_job_definitions cfg db).jobDefs.find? (fun r => r.job_id == job_id) = some jd := by
  obtain ⟨sp, hsp⟩ := Option.isSome_iff_exists.mp h
  have hmem : sp ∈ JOB_SPECS cfg ∧ sp.job_id = job_id := by
    refine ⟨List.mem_of_find?_eq_some hsp, ?_⟩
    have := List.find?_some hsp
    exact beq_iff_eq.mp this
  have hex : ∃ r ∈ (seed_job_definitions cfg db).jobDefs, r.job_id = job_id := by
    unfold seed_job_definitions
    exact foldl_insertDef_has job_id (JOB_SPECS cfg) db (Or.inl ⟨sp, hmem.1, hmem.2⟩)
  obtain ⟨r, hr, hrid⟩ := hex
  have : ((seed_job_definitions cfg db).jobDefs.find? (fun r => r.job_id == job_id)).isSome := by
    rw [List.find?_isSome]
    exact ⟨r, hr, by simp [hrid]⟩
  exact Option.isSome_iff_exists.mp this


/-- Rewriting `runLocked` under a known job id and a found definition. -/
lemma runLocked_eq (cfg : Settings) (nowYear : Int) (t0 elapsed : Nat)
    (job_id : String) (override : Option Dict) (tb : String)
    (body : Dict → Except String String) (s : SysState) (spec : JobSpecL) (jd : JobDefRow)
    (hspec : jobSpec? cfg job_id = some spec)
    (hjd : (seed_job_definitions cfg s.db).jobDefs.find? (fun r => r.job_id == job_id) = some jd) :
    runLocked cfg nowYear t0 elapsed job_id override tb body s
      = runLockedFinish job_id tb
          (spec.normalize cfg nowYear (dictUpdate jd.default_params (override.getD [])))
          t0 elapsed
          (body (spec.normalize cfg nowYear (dictUpdate jd.default_params (override.getD []))))
          (seed_job_definitions cfg s.db) s.locks := by
  unfold runLocked
  rw [hspec, hjd]

/-- A job-body outcome finalizes to exactly one of the two terminal
statuses. -/
lemma statusOf_terminal (o : Except String String) :
    statusOf o = "success" ∨ statusOf o = "failed" := by
  cases o <;> simp [statusOf]

/-- The run succeeds exactly when the job body returned. -/
lemma statusOf_eq_success_iff (o : Except String String) :
    statusOf o = "success" ↔ o.isOk = true := by
  cases o <;> simp [statusOf, Except.isOk, Except.toBool]

/-- The run fails exactly when the job body raised. -/
lemma statusOf_eq_failed_iff (o : Except String String) :
    statusOf o = "failed" ↔ ∃ e, o = .error e := by
  cases o <;> simp [statusOf, Except.isOk, Except.toBool]

/-- Everything the claims need about the tail of the locked section: the
returned result dictionary, the single created-then-finalized run row with
its timing fields, and the released lock. -/
lemma runLockedFinish_characterization (job_id tb : String) (params : Dict)
    (t0 elapsed : Nat) (outcome : Except String String) (db1 : DBState) (locks : List String) :
    ∃ s2 : SysState,
      runLockedFinish job_id tb params t0 elapsed outcome db1 locks
        = (.ok { ok := statusOf outcome == "success", job_id := job_id,
                 run_id := some db1.nextRunId, status := statusOf outcome,
                 message := messageOf outcome, error := errorOf outcome },
           s2,
           [.runRowCreated db1.nextRunId "running",
            .runRowFinalized db1.nextRunId (statusOf outcome),
            .lockReleased job_id]) ∧
      s2.locks = locks.erase job_id ∧
      s2.db.jobRuns.length = db1.jobRuns.length + 1 ∧
      (∃ row ∈ s2.db.jobRuns,
        row.id = db1.nextRunId ∧ row.job_id = job_id ∧ row.status = statusOf outcome ∧
        row.triggered_by = tb ∧ row.params = params ∧
        row.message = messageOf outcome ∧ row.error = errorOf outcome ∧
        row.started_at = t0 ∧ row.finished_at = some (t0 + elapsed) ∧
        row.duration_ms = some ((t0 + elapsed) - t0)) := by
  refine ⟨_, rfl, rfl, ?_, ?_⟩
  · show ((db1.jobRuns ++ [runningRow job_id tb params db1.nextRunId t0]).map _).length = _
    simp
  · refine ⟨_, List.mem_map_of_mem _
      (List.mem_append_right _ (List.mem_singleton_self
        (runningRow job_id tb params db1.nextRunId t0))), ?_⟩
    simp [runningRow]

/-- With a known job id, jobs enabled and a free lock, `run_job_now`
acquires the lock and defers to the locked section. -/
lemma run_job_now_eq_of_free (cfg : Settings) (nowYear : Int) (t0 elapsed : Nat)
    (job_id : String) (override : Option Dict) (tbv : String)
    (body : Dict → Except String String) (s : SysState)
    (hsome : ¬(jobSpec? cfg job_id).isNone = true) (hen : cfg.JOBS_ENABLED = true)
    (hfree : job_id ∉ s.locks) :
    run_job_now cfg nowYear t0 elapsed job_id override tbv body s
      = ((runLocked cfg nowYear t0 elapsed job_id override
            (if tbv ∈ JOB_RUN_BY then tbv else "manual") body
            { s with locks := job_id :: s.locks }).1,
         (runLocked cfg nowYear t0 elapsed job_id override
            (if tbv ∈ JOB_RUN_BY then tbv else "manual") body
            { s with locks := job_id :: s.locks }).2.1,
         .lockAcquired job_id ::
           (runLocked cfg nowYear t0 elapsed job_id override
            (if tbv ∈ JOB_RUN_BY then tbv else "manual") body
            { s with locks := job_id :: s.locks }).2.2) := by
  unfold run_job_now
  rw [if_neg hsome, if_neg (by simp [hen]), if_neg hfree]

/-- C3: a `JobRun` row created `running` transitions exactly once to a
terminal status (`success` or `failed`) whether the job body returns or
raises; its `finished_at` is `started_at + elapsed >= started_at` and
`duration_ms` is their millisecond difference; and the per-job lock is
always released (the lock set after any call equals the lock set before
it, over every branch of `run_job_now`). -/
theorem c3_run_completeness :
    (∀ cfg nowYear t0 elapsed job_id override triggered_by body s,
      (run_job_now cfg nowYear t0 elapsed job_id override triggered_by body s).2.1.locks
        = s.locks) ∧
    (∀ cfg nowYear t0 elapsed job_id override triggered_by body s spec,
      jobSpec? cfg job_id = some spec → cfg.JOBS_ENABLED = true → job_id ∉ s.locks →
      ∃ (res : RunResult) (s2 : SysState) (st : String),
        run_job_now cfg nowYear t0 elapsed job_id override triggered_by body s
          = (.ok res, s2,
             [.lockAcquired job_id,
              .runRowCreated s.db.nextRunId "running",
              .runRowFinalized s.db.nextRunId st,
              .lockReleased job_id]) ∧
        (st = "success" ∨ st = "failed") ∧
        res.status = st ∧
        s2.locks = s.locks ∧
        (∃ row ∈ s2.db.jobRuns,
          row.id = s.db.nextRunId ∧ row.status = st ∧ row.started_at = t0 ∧
          row.finished_at = some (t0 + elapsed) ∧ row.started_at ≤ t0 + elapsed ∧
          row.duration_ms = some ((t0 + elapsed) - t0))) := by
  constructor
  · intro cfg nowYear t0 elapsed job_id override tbv body s
    unfold run_job_now
    by_cases h1 : (jobSpec? cfg job_id).isNone
    · rw [if_pos h1]
    · rw [if_neg h1]
      by_cases h2 : cfg.JOBS_ENABLED
      · rw [if_neg (by simp [h2])]
        dsimp only
        by_cases h3 : job_id ∈ s.locks
        · rw [if_pos h3]
        · rw [if_neg h3]
          unfold runLocked
          cases hs : jobSpec? cfg job_id with
          | none => exact List.erase_cons_head job_id s.locks
          | some spec =>
            dsimp only
            cases hf : List.find? (fun r => r.job_id == job_id)
                (seed_job_definitions cfg s.db).jobDefs with
            | none => exact List.erase_cons_head job_id s.locks
            | some jd => exact List.erase_cons_head job_id s.locks
      · rw [if_pos (by simp [h2])]
  · intro cfg nowYear t0 elapsed job_id override tbv body s spec hspec hen hfree
    obtain ⟨jd, hjd⟩ := seed_find_some cfg s.db job_id (by rw [hspec]; rfl)
    have hnone : ¬(jobSpec? cfg job_id).isNone = true := by rw [hspec]; simp
    have hlock := runLocked_eq cfg nowYear t0 elapsed job_id override
      (if tbv ∈ JOB_RUN_BY then tbv else "manual") body
      { s with locks := job_id :: s.locks } spec jd hspec hjd
    have hproj1 : ({ s with locks := job_id :: s.locks } : SysState).db = s.db := rfl
    have hproj2 : ({ s with locks := job_id :: s.locks } : SysState).locks
        = job_id :: s.locks := rfl
    rw [hproj1, hproj2] at hlock
    have hrun := run_job_now_eq_of_free cfg nowYear t0 elapsed job_id override tbv body s
      hnone hen hfree
    rw [hlock] at hrun
    set tb := if tbv ∈ JOB_RUN_BY then tbv else "manual" with htb
    set params := spec.normalize cfg nowYear (dictUpdate jd.default_params (override.getD []))
      with hparams
    obtain ⟨s2, heq, hlocks, hlen, row, hrowmem, hrowfacts⟩ :=
      runLockedFinish_characterization job_id tb params t0 elapsed (body params)
        (seed_job_definitions cfg s.db) (job_id :: s.locks)
    rw [heq] at hrun
    refine ⟨{ ok := statusOf (body params) == "success", job_id := job_id,
              run_id := some (seed_job_definitions cfg s.db).nextRunId,
              status := statusOf (body params), message := messageOf (body params),
              error := errorOf (body params) },
            s2, statusOf (body params), ?_, statusOf_terminal _, ?_, ?_, ?_⟩
    · rw [hrun]
      have : (seed_job_definitions cfg s.db).nextRunId = s.db.nextRunId :=
        foldl_insertDef_nextRunId (JOB_SPECS cfg) s.db
      rw [this]
    · rfl
    · rw [hlocks]
      exact List.erase_cons_head job_id s.locks
    · refine ⟨row, hrowmem, ?_, hrowfacts.2.2.1, hrowfacts.2.2.2.2.2.2.2.1, ?_, ?_, ?_⟩
      · rw [hrowfacts.1]
        exact foldl_insertDef_nextRunId (JOB_SPECS cfg) s.db
      · exact hrowfacts.2.2.2.2.2.2.2.2.1
      · rw [hrowfacts.2.2.2.2.2.2.2.1]; omega
      · exact hrowfacts.2.2.2.2.2.2.2.2.2

/-- Shared demo configuration used by the concrete witnesses. -/
def cfgDemo : Settings :=
  { TZ := "Asia/Shanghai", JOB_RETENTION_DAYS := 30, JOBS_ENABLED := true }

/-- Shared demo state: empty lock table, empty store, next run id 1. -/
def demoSys : SysState :=
  { locks := [], db := { jobDefs := [], jobRuns := [], nextRunId := 1 } }

/-- `run_job_now` on an unknown job id. -/
lemma run_job_now_unknown (cfg : Settings) (nowYear : Int) (t0 elapsed : Nat)
    (job_id : String) (override : Option Dict) (tbv : String)
    (body : Dict → Except String String) (s : SysState)
    (h : (jobSpec? cfg job_id).isNone = true) :
    run_job_now cfg nowYear t0 elapsed job_id override tbv body s
      = (.ok { ok := false, job_id := job_id, status := "failed",
               error := some "unknown job" }, s, []) := by
  unfold run_job_now
  rw [if_pos h]

/-- `run_job_now` under the global kill switch. -/
lemma run_job_now_disabled (cfg : Settings) (nowYear : Int) (t0 elapsed : Nat)
    (job_id : String) (override : Option Dict) (tbv : String)
    (body : Dict → Except String String) (s : SysState)
    (h1 : ¬(jobSpec? cfg job_id).isNone = true) (h2 : cfg.JOBS_ENABLED = false) :
    run_job_now cfg nowYear t0 elapsed job_id override tbv body s
      = (.ok { ok := false, job_id := job_id, status := "skipped",
               message := "jobs are disabled by JOBS_ENABLED=false" }, s, []) := by
  unfold run_job_now
  rw [if_neg h1, if_pos (by simp [h2])]

/-- `run_job_now` while the job's lock is held: the skipped result, with
no run row created and the state untouched. -/
lemma run_job_now_locked_skip (cfg : Settings) (nowYear : Int) (t0 elapsed : Nat)
    (job_id : String) (override : Option Dict) (tbv : String)
    (body : Dict → Except String String) (s : SysState)
    (h1 : ¬(jobSpec? cfg job_id).isNone = true) (h2 : cfg.JOBS_ENABLED = true)
    (h3 : job_id ∈ s.locks) :
    run_job_now cfg nowYear t0 elapsed job_id override tbv body s
      = (.ok { ok := false, job_id := job_id, status := "skipped",
               message := "job is already running" }, s, []) := by
  unfold run_job_now
  rw [if_neg h1, if_neg (by simp [h2]), if_pos h3]

/-- C2: a `run_job_now` call that cannot acquire the job's non-blocking
lock returns `status="skipped"` with message "job is already running" and
creates no run row (the state is untouched); consequently, when a second
call lands entirely inside a first call's critical section, the pair
yields exactly one running-to-terminal run row (the first call's) and one
skipped result with no row (the second call's), and the lock is free
again afterwards. -/
theorem c2_lock_skip_concurrency :
    (∀ cfg nowYear t0 elapsed job_id override triggered_by body s,
      (jobSpec? cfg job_id).isNone = false → cfg.JOBS_ENABLED = true → job_id ∈ s.locks →
      run_job_now cfg nowYear t0 elapsed job_id override triggered_by body s
        = (.ok { ok := false, job_id := job_id, status := "skipped",
                 message := "job is already running" }, s, [])) ∧
    (∀ (cfg : Settings) (nowYear : Int) (tA0 eA tB0 eB : Nat) (job_id : String)
        (ovA ovB : Option Dict) (tbA tbB : String)
        (bodyA bodyB : Dict → Except String String) (s0 : SysState) (spec : JobSpecL),
      jobSpec? cfg job_id = some spec → cfg.JOBS_ENABLED = true → job_id ∉ s0.locks →
      run_job_now cfg nowYear tB0 eB job_id ovB tbB bodyB
          { s0 with locks := job_id :: s0.locks }
        = (.ok { ok := false, job_id := job_id, status := "skipped",
                 message := "job is already running" },
           { s0 with locks := job_id :: s0.locks }, []) ∧
      (∃ (res : RunResult) (s2 : SysState) (st : String),
        runLocked cfg nowYear tA0 eA job_id ovA
            (if tbA ∈ JOB_RUN_BY then tbA else "manual") bodyA
            (run_job_now cfg nowYear tB0 eB job_id ovB tbB bodyB
              { s0 with locks := job_id :: s0.locks }).2.1
          = (.ok res, s2,
             [.runRowCreated s0.db.nextRunId "running",
              .runRowFinalized s0.db.nextRunId st,
              .lockReleased job_id]) ∧
        (st = "success" ∨ st = "failed") ∧
        res.status = st ∧
        s2.locks = s0.locks ∧
        s2.db.jobRuns.length = s0.db.jobRuns.length + 1 ∧
        (∃ row ∈ s2.db.jobRuns, row.id = s0.db.nextRunId ∧ row.status = st))) := by
  constructor
  · intro cfg nowYear t0 elapsed job_id override tbv body s h1 h2 h3
    exact run_job_now_locked_skip cfg nowYear t0 elapsed job_id override tbv body s
      (by simp [h1]) h2 h3
  · intro cfg nowYear tA0 eA tB0 eB job_id ovA ovB tbA tbB bodyA bodyB s0 spec hspec hen hfree
    have hskipB : run_job_now cfg nowYear tB0 eB job_id ovB tbB bodyB
        { s0 with locks := job_id :: s0.locks }
        = (.ok { ok := false, job_id := job_id, status := "skipped",
                 message := "job is already running" },
           { s0 with locks := job_id :: s0.locks }, []) :=
      run_job_now_locked_skip cfg nowYear tB0 eB job_id ovB tbB bodyB _
        (by rw [hspec]; simp) hen (List.mem_cons_self job_id s0.locks)
    refine ⟨hskipB, ?_⟩
    obtain ⟨jd, hjd⟩ := seed_find_some cfg s0.db job_id (by rw [hspec]; rfl)
    have hlock := runLocked_eq cfg nowYear tA0 eA job_id ovA
      (if tbA ∈ JOB_RUN_BY then tbA else "manual") bodyA
      { s0 with locks := job_id :: s0.locks } spec jd hspec hjd
    have hproj1 : ({ s0 with locks := job_id :: s0.locks } : SysState).db = s0.db := rfl
    have hproj2 : ({ s0 with locks := job_id :: s0.locks } : SysState).locks
        = job_id :: s0.locks := rfl
    rw [hproj1, hproj2] at hlock
    set tb := if tbA ∈ JOB_RUN_BY then tbA else "manual" with htb
    set params := spec.normalize cfg nowYear (dictUpdate jd.default_params (ovA.getD []))
      with hparams
    obtain ⟨s2, heq, hlocks, hlen, row, hrowmem, hrowfacts⟩ :=
      runLockedFinish_characterization job_id tb params tA0 eA (bodyA params)
        (seed_job_definitions cfg s0.db) (job_id :: s0.locks)
    rw [heq] at hlock
    have hstate : (run_job_now cfg nowYear tB0 eB job_id ovB tbB bodyB
        { s0 with locks := job_id :: s0.locks }).2.1
        = ({ s0 with locks := job_id :: s0.locks } : SysState) := by rw [hskipB]
    refine ⟨{ ok := statusOf (bodyA params) == "success", job_id := job_id,
              run_id := some (seed_job_definitions cfg s0.db).nextRunId,
              status := statusOf (bodyA params), message := messageOf (bodyA params),
              error := errorOf (bodyA params) },
            s2, statusOf (bodyA params), ?_, statusOf_terminal _, rfl, ?_, ?_, ?_⟩
    · rw [hstate, hlock]
      have : (seed_job_definitions cfg s0.db).nextRunId = s0.db.nextRunId :=
        foldl_insertDef_nextRunId (JOB_SPECS cfg) s0.db
      rw [this]
    · rw [hlocks]
      exact List.erase_cons_head job_id s0.locks
    · rw [hlen]
      have : (seed_job_definitions cfg s0.db).jobRuns = s0.db.jobRuns :=
        foldl_insertDef_jobRuns (JOB_SPECS cfg) s0.db
      rw [this]
    · refine ⟨row, hrowmem, ?_, hrowfacts.2.2.1⟩
      rw [hrowfacts.1]
      exact foldl_insertDef_nextRunId (JOB_SPECS cfg) s0.db

/-- C2 witness: the interleaved pair at a concrete job and state — the
inner call skips with "job is already running" while the outer call's
critical section commits one terminal row. -/
theorem c2_lock_skip_concurrency_witness :
    (jobSpec? cfgDemo "trade_exim_5y").isNone = false ∧
    cfgDemo.JOBS_ENABLED = true ∧ "trade_exim_5y" ∉ demoSys.locks ∧
    (run_job_now cfgDemo 2026 2000 100 "trade_exim_5y" none "api" (fun _ => .ok "done-b")
        { demoSys with locks := "trade_exim_5y" :: demoSys.locks }
      = (.ok { ok := false, job_id := "trade_exim_5y", status := "skipped",
               message := "job is already running" },
         { demoSys with locks := "trade_exim_5y" :: demoSys.locks }, [])) := by
  refine ⟨rfl, rfl, by simp [demoSys], ?_⟩
  have hsome : (jobSpec? cfgDemo "trade_exim_5y").isSome = true := rfl
  exact (c2_lock_skip_concurrency.2 cfgDemo 2026 1000 500 2000 100 "trade_exim_5y"
    none none "manual" "api" (fun _ => .ok "done-a") (fun _ => .ok "done-b") demoSys
    ((jobSpec? cfgDemo "trade_exim_5y").get hsome)
    (Option.some_get hsome).symm rfl (by simp [demoSys])).1

/-- C3 witness: a complete run at a concrete job, body and clock, showing
the single running-to-terminal row with its timing fields. -/
theorem c3_run_completeness_witness :
    (run_job_now cfgDemo 2026 1000 500 "trade_exim_5y" none "manual"
        (fun _ => .ok "done") demoSys).2.1.locks = demoSys.locks ∧
    (∃ (res : RunResult) (s2 : SysState) (st : String),
      run_job_now cfgDemo 2026 1000 500 "trade_exim_5y" none "manual"
          (fun _ => .ok "done") demoSys
        = (.ok res, s2,
           [.lockAcquired "trade_exim_5y",
            .runRowCreated demoSys.db.nextRunId "running",
            .runRowFinalized demoSys.db.nextRunId st,
            .lockReleased "trade_exim_5y"]) ∧
      (st = "success" ∨ st = "failed") ∧
      res.status = st ∧
      s2.locks = demoSys.locks ∧
      (∃ row ∈ s2.db.jobRuns,
        row.id = demoSys.db.nextRunId ∧ row.status = st ∧ row.started_at = 1000 ∧
        row.finished_at = some (1000 + 500) ∧ row.started_at ≤ 1000 + 500 ∧
        row.duration_ms = some ((1000 + 500) - 1000))) := by
  constructor
  · exact c3_run_completeness.1 cfgDemo 2026 1000 500 "trade_exim_5y" none "manual"
      (fun _ => .ok "done") demoSys
  · have hsome : (jobSpec? cfgDemo "trade_exim_5y").isSome = true := rfl
    exact c3_run_completeness.2 cfgDemo 2026 1000 500 "trade_exim_5y" none "manual"
      (fun _ => .ok "done") demoSys
      ((jobSpec? cfgDemo "trade_exim_5y").get hsome)
      (Option.some_get hsome).symm rfl (by simp [demoSys])

/-- C10: for every invocation of `run_job_now` that returns a result, the
`ok` field is true exactly when `status` is "success": the unknown-job,
kill-switch, lock-contention and failed-run paths all return `ok=false`. -/
theorem c10_ok_iff_success (cfg : Settings) (nowYear : Int) (t0 elapsed : Nat)
    (job_id : String) (override : Option Dict) (triggered_by : String)
    (body : Dict → Except String String) (s : SysState)
    (res : RunResult) (s2 : SysState) (ev : List RunEvent)
    (h : run_job_now cfg nowYear t0 elapsed job_id override triggered_by body s
      = (.ok res, s2, ev)) :
    res.ok = true ↔ res.status = "success" := by
  by_cases h1 : (jobSpec? cfg job_id).isNone = true
  · rw [run_job_now_unknown cfg nowYear t0 elapsed job_id override triggered_by body s h1] at h
    simp only [Prod.mk.injEq, Except.ok.injEq] at h
    obtain ⟨hres, -, -⟩ := h
    rw [← hres]
    simp
  · by_cases h2 : cfg.JOBS_ENABLED
    · by_cases h3 : job_id ∈ s.locks
      · rw [run_job_now_locked_skip cfg nowYear t0 elapsed job_id override triggered_by
          body s h1 h2 h3] at h
        simp only [Prod.mk.injEq, Except.ok.injEq] at h
        obtain ⟨hres, -, -⟩ := h
        rw [← hres]
        simp
      · have hsome2 : (jobSpec? cfg job_id).isSome = true := by
          cases hs : jobSpec? cfg job_id with
          | none => exact absurd (by rw [hs]; rfl) h1
          | some sp => rfl
        obtain ⟨spec, hspec⟩ := Option.isSome_iff_exists.mp hsome2
        obtain ⟨jd, hjd⟩ := seed_find_some cfg s.db job_id (by rw [hspec]; rfl)
        have hlock := runLocked_eq cfg nowYear t0 elapsed job_id override
          (if triggered_by ∈ JOB_RUN_BY then triggered_by else "manual") body
          { s with locks := job_id :: s.locks } spec jd hspec hjd
        have hproj1 : ({ s with locks := job_id :: s.locks } : SysState).db = s.db := rfl
        have hproj2 : ({ s with locks := job_id :: s.locks } : SysState).locks
            = job_id :: s.locks := rfl
        rw [hproj1, hproj2] at hlock
        rw [run_job_now_eq_of_free cfg nowYear t0 elapsed job_id override triggered_by
          body s h1 (by simpa using h2) h3, hlock] at h
        set params := spec.normalize cfg nowYear
          (dictUpdate jd.default_params (override.getD [])) with hparams
        obtain ⟨s2x, heq, -, -, -⟩ :=
          runLockedFinish_characterization job_id
            (if triggered_by ∈ JOB_RUN_BY then triggered_by else "manual") params
            t0 elapsed (body params) (seed_job_definitions cfg s.db) (job_id :: s.locks)
        rw [heq] at h
        simp only [Prod.mk.injEq, Except.ok.injEq] at h
        obtain ⟨hres, -, -⟩ := h
        rw [← hres]
        simp only []
        exact beq_iff_eq
    · rw [run_job_now_disabled cfg nowYear t0 elapsed job_id override triggered_by body s h1
        (by simpa using h2)] at h
      simp only [Prod.mk.injEq, Except.ok.injEq] at h
      obtain ⟨hres, -, -⟩ := h
      rw [← hres]
      simp

/-- C10 witness: the equivalence at a concrete successful run and at a
concrete lock-contended skip. -/
theorem c10_ok_iff_success_witness :
    ((run_job_now cfgDemo 2026 1000 500 "trade_exim_5y" none "manual"
        (fun _ => .ok "done") demoSys).1 = .ok
          { ok := true, job_id := "trade_exim_5y", run_id := some 1,
            status := "success", message := "done", error := none }) ∧
    ({ ok := true, job_id := "trade_exim_5y", run_id := some 1,
       status := "success", message := "done", error := none : RunResult }.ok = true
      ↔ { ok := true, job_id := "trade_exim_5y", run_id := some 1,
          status := "success", message := "done", error := none : RunResult }.status
          = "success") := by
  constructor
  · rfl
  · exact c10_ok_iff_success cfgDemo 2026 1000 500 "trade_exim_5y" none "manual"
      (fun _ => .ok "done") demoSys _
      (run_job_now cfgDemo 2026 1000 500 "trade_exim_5y" none "manual"
        (fun _ => .ok "done") demoSys).2.1
      (run_job_now cfgDemo 2026 1000 500 "trade_exim_5y" none "manual"
        (fun _ => .ok "done") demoSys).2.2 rfl

/-- A filter keeps every element exactly when the predicate holds on all
of them. -/
lemma length_filter_eq_iff {α : Type} (p : α → Bool) :
    ∀ l : List α, (l.filter p).length = l.length ↔ ∀ a ∈ l, p a = true := by
  intro l
  induction l with
  | nil => simp
  | cons x xs ih =>
    by_cases hx : p x
    · simp [hx, ih]
    · have hle := List.length_filter_le p xs
      rw [List.filter_cons_of_neg (by simp [hx]), List.length_cons]
      refine iff_of_false (by omega) ?_
      intro hall
      exact hx (hall x (List.mem_cons_self x xs))

/-- C5: the insight-generation job raises (and the run is recorded
"failed") exactly when at least one generation was attempted and every
attempt failed; when some attempt succeeds the job returns its summary,
partial failures only being flagged inside that message, and the run
completes "success". -/
theorem c5_fail_only_if_all_failed :
    (∀ (attempts : List GenOutcome) (added : Int) (purged : Nat),
      (∃ e, run_generate_homepage_insights attempts added purged = .error e)
        ↔ (attempts ≠ [] ∧ ∀ a ∈ attempts, a.ok = false)) ∧
    (∀ (attempts : List GenOutcome) (added : Int) (purged : Nat),
      (∃ a ∈ attempts, a.ok = true) →
      ∃ m, run_generate_homepage_insights attempts added purged = .ok m ∧
        ((∃ a ∈ attempts, a.ok = false) →
          ∃ base, m = base ++ " (partial llm failures logged)")) ∧
    (∀ (cfg : Settings) (nowYear : Int) (t0 elapsed : Nat) (job_id : String)
        (override : Option Dict) (triggered_by : String) (s : SysState) (spec : JobSpecL)
        (attempts : List GenOutcome) (added : Int) (purged : Nat),
      jobSpec? cfg job_id = some spec → cfg.JOBS_ENABLED = true → job_id ∉ s.locks →
      ∃ (res : RunResult) (s2 : SysState) (ev : List RunEvent),
        run_job_now cfg nowYear t0 elapsed job_id override triggered_by
            (fun _ => run_generate_homepage_insights attempts added purged) s
          = (.ok res, s2, ev) ∧
        (res.status = "failed" ↔ attempts ≠ [] ∧ ∀ a ∈ attempts, a.ok = false) ∧
        (res.status = "success" ↔ ¬(attempts ≠ [] ∧ ∀ a ∈ attempts, a.ok = false))) := by
  have hcondiff : ∀ attempts : List GenOutcome,
      (attempts.length > 0 ∧ (llmFailedMsgs attempts).length = attempts.length)
        ↔ (attempts ≠ [] ∧ ∀ a ∈ attempts, a.ok = false) := by
    intro attempts
    unfold llmFailedMsgs
    rw [List.length_map, length_filter_eq_iff]
    simp [List.length_pos]
  have hmain : ∀ (attempts : List GenOutcome) (added : Int) (purged : Nat),
      (∃ e, run_generate_homepage_insights attempts added purged = .error e)
        ↔ (attempts ≠ [] ∧ ∀ a ∈ attempts, a.ok = false) := by
    intro attempts added purged
    unfold run_generate_homepage_insights
    by_cases hc : attempts.length > 0 ∧ (llmFailedMsgs attempts).length = attempts.length
    · rw [if_pos hc]
      exact iff_of_true ⟨_, rfl⟩ ((hcondiff attempts).mp hc)
    · rw [if_neg hc]
      refine iff_of_false (by simp) fun hall => hc ((hcondiff attempts).mpr hall)
  refine ⟨hmain, ?_, ?_⟩
  · intro attempts added purged hok
    obtain ⟨a, ha, haok⟩ := hok
    have hcond : ¬(attempts.length > 0 ∧ (llmFailedMsgs attempts).length = attempts.length) := by
      intro hc
      have := ((hcondiff attempts).mp hc).2 a ha
      rw [haok] at this
      cases this
    unfold run_generate_homepage_insights
    rw [if_neg hcond]
    refine ⟨_, rfl, ?_⟩
    intro hfail
    obtain ⟨b, hb, hbf⟩ := hfail
    have hne : (llmFailedMsgs attempts).isEmpty = false := by
      unfold llmFailedMsgs
      rw [List.isEmpty_eq_false_iff_exists_mem]
      exact ⟨_, List.mem_map_of_mem _ (List.mem_filter.mpr ⟨hb, by simp [hbf]⟩)⟩
    rw [if_neg (by simp [hne])]
    exact ⟨_, rfl⟩
  · intro cfg nowYear t0 elapsed job_id override tbv s spec attempts added purged hspec hen hfree
    obtain ⟨jd, hjd⟩ := seed_find_some cfg s.db job_id (by rw [hspec]; rfl)
    have hnone : ¬(jobSpec? cfg job_id).isNone = true := by rw [hspec]; simp
    have hlock := runLocked_eq cfg nowYear t0 elapsed job_id override
      (if tbv ∈ JOB_RUN_BY then tbv else "manual")
      (fun _ => run_generate_homepage_insights attempts added purged)
      { s with locks := job_id :: s.locks } spec jd hspec hjd
    have hproj1 : ({ s with locks := job_id :: s.locks } : SysState).db = s.db := rfl
    have hproj2 : ({ s with locks := job_id :: s.locks } : SysState).locks
        = job_id :: s.locks := rfl
    rw [hproj1, hproj2] at hlock
    have hrun := run_job_now_eq_of_free cfg nowYear t0 elapsed job_id override tbv
      (fun _ => run_generate_homepage_insights attempts added purged) s hnone hen hfree
    rw [hlock] at hrun
    set tb := if tbv ∈ JOB_RUN_BY then tbv else "manual" with htb
    set params := spec.normalize cfg nowYear (dictUpdate jd.default_params (override.getD []))
      with hparams
    obtain ⟨s2, heq, -, -, -⟩ :=
      runLockedFinish_characterization job_id tb params t0 elapsed
        (run_generate_homepage_insights attempts added purged)
        (seed_job_definitions cfg s.db) (job_id :: s.locks)
    rw [heq] at hrun
    refine ⟨_, s2, _, hrun, ?_, ?_⟩
    · show statusOf (run_generate_homepage_insights attempts added purged) = "failed" ↔ _
      rw [statusOf_eq_failed_iff, ← hmain attempts added purged]
    · show statusOf (run_generate_homepage_insights attempts added purged) = "success" ↔ _
      rw [statusOf_eq_success_iff, ← hmain attempts added purged]
      cases run_generate_homepage_insights attempts added purged with
      | ok m => simp [Except.isOk, Except.toBool]
      | error e => simp [Except.isOk, Except.toBool]

/-- C5 witness: the equivalences at a concrete all-failed batch and a
concrete partially-failed batch. -/
theorem c5_fail_only_if_all_failed_witness :
    ((∃ e, run_generate_homepage_insights
        [⟨"trade_flow/exim/India", false, some "llm down"⟩] 0 0 = .error e)
      ↔ ([(⟨"trade_flow/exim/India", false, some "llm down"⟩ : GenOutcome)] ≠ [] ∧
          ∀ a ∈ [(⟨"trade_flow/exim/India", false, some "llm down"⟩ : GenOutcome)],
            a.ok = false)) ∧
    (∃ m, run_generate_homepage_insights
        [⟨"trade_flow/exim/India", true, none⟩, ⟨"wealth/age/India", false, some "err"⟩] 1 0
          = .ok m ∧
      ∃ base, m = base ++ " (partial llm failures logged)") := by
  constructor
  · exact c5_fail_only_if_all_failed.1 [⟨"trade_flow/exim/India", false, some "llm down"⟩] 0 0
  · obtain ⟨m, hm, hpart⟩ := c5_fail_only_if_all_failed.2.1
      [⟨"trade_flow/exim/India", true, none⟩, ⟨"wealth/age/India", false, some "err"⟩] 1 0
      ⟨_, List.mem_cons_self _ _, rfl⟩
    exact ⟨m, hm, hpart ⟨_, List.mem_cons_of_mem _ (List.mem_cons_self _ _), rfl⟩⟩

/-- C9: `update_job_definition` persists the supplied `default_params`
only after passing them through the job's own normalizer: on a successful
update the stored row's `default_params` equals
`spec.normalize(default_params)` (clamped numerics, allow-listed
geographies), never the caller's raw map. -/
theorem c9_update_normalizes_params (cfg : Settings) (nowYear : Int) (db : DBState)
    (job_id cron_expr timezone_name : String) (enabled : Bool) (default_params : Dict)
    (cronValid : String → String → Bool) (spec : JobSpecL) (row0 : JobDefRow)
    (hrow : db.jobDefs.find? (fun r => r.job_id == job_id) = some row0)
    (hspec : jobSpec? cfg job_id = some spec)
    (hcron : cronValid (pyStrip cron_expr)
      (if pyStrip timezone_name = "" then cfg.TZ else pyStrip timezone_name) = true) :
    (update_job_definition cfg nowYear db job_id cron_expr timezone_name enabled
        default_params cronValid).1 = (true, "updated") ∧
    ∃ row ∈ (update_job_definition cfg nowYear db job_id cron_expr timezone_name enabled
        default_params cronValid).2.jobDefs,
      row.job_id = job_id ∧
      row.default_params = spec.normalize cfg nowYear default_params ∧
      row.enabled = enabled ∧ row.cron_expr = pyStrip cron_expr := by
  have hid0 := List.find?_some hrow
  have hid : (row0.job_id == job_id) = true := hid0
  have hupd : update_job_definition cfg nowYear db job_id cron_expr timezone_name enabled
      default_params cronValid
      = ((true, "updated"),
         { db with jobDefs := db.jobDefs.map (fun r =>
             if r.job_id == job_id then
               { r with
                 cron_expr := pyStrip cron_expr,
                 timezone := if pyStrip timezone_name = "" then cfg.TZ
                   else pyStrip timezone_name,
                 enabled := enabled,
                 default_params := spec.normalize cfg nowYear default_params }
             else r) }) := by
    unfold update_job_definition
    rw [hrow, hspec]
    dsimp only
    rw [if_neg (by simp [hcron])]
  rw [hupd]
  refine ⟨rfl, ?_⟩
  refine ⟨_, List.mem_map_of_mem _ (List.mem_of_find?_eq_some hrow), ?_⟩
  rw [if_pos hid]
  exact ⟨beq_iff_eq.mp hid, rfl, rfl, rfl⟩

/-- The trade-exim job definition row used by the C9 witness. -/
def demoDefRow : JobDefRow :=
  { job_id := "trade_exim_5y",
    name := "Trade Exim 5Y by Geo",
    description := "Refresh export/import series from World Bank WDI for configured geos.",
    cron_expr := "*/10 * * * *",
    timezone := "Asia/Shanghai",
    enabled := true,
    default_params := [] }

/-- A one-row registry store for the C9 witness. -/
def demoDefsDb : DBState :=
  { jobDefs := [demoDefRow], jobRuns := [], nextRunId := 1 }

/-- C9 witness: updating the trade-exim job with raw `{years: 999}` stores
the clamped value 20, not the caller's raw map. -/
theorem c9_update_normalizes_params_witness :
    (update_job_definition cfgDemo 2026 demoDefsDb "trade_exim_5y" "0 3 * * *" "" true
        [("years", .int 999)] (fun _ _ => true)).1 = (true, "updated") ∧
    (∃ row ∈ (update_job_definition cfgDemo 2026 demoDefsDb "trade_exim_5y" "0 3 * * *" ""
        true [("years", .int 999)] (fun _ _ => true)).2.jobDefs,
      row.job_id = "trade_exim_5y" ∧ row.default_params.getP "years" = .int 20) := by
  have hsome : (jobSpec? cfgDemo "trade_exim_5y").isSome = true := rfl
  obtain ⟨hok, row, hmem, hjid, hdp, -, -⟩ :=
    c9_update_normalizes_params cfgDemo 2026 demoDefsDb "trade_exim_5y" "0 3 * * *" "" true
      [("years", .int 999)] (fun _ _ => true)
      ((jobSpec? cfgDemo "trade_exim_5y").get hsome) demoDefRow
      rfl (Option.some_get hsome).symm rfl
  refine ⟨hok, row, hmem, hjid, ?_⟩
  rw [hdp]
  rfl

/-- The code-point comparison is total. -/
lemma charListLeb_total : ∀ a b : List Char,
    charListLeb a b = true ∨ charListLeb b a = true := by
  intro a
  induction a with
  | nil => intro b; left; rfl
  | cons c cs ih =>
    intro b
    cases b with
    | nil => right; rfl
    | cons d ds =>
      unfold charListLeb
      rcases lt_trichotomy c d with h | h | h
      · left; rw [if_pos h]
      · subst h
        simp only [lt_self_iff_false, if_false]
        exact ih ds
      · right; rw [if_pos h]

/-- The code-point comparison is antisymmetric. -/
lemma charListLeb_antisymm : ∀ a b : List Char,
    charListLeb a b = true → charListLeb b a = true → a = b := by
  intro a
  induction a with
  | nil =>
    intro b _ hba
    cases b with
    | nil => rfl
    | cons d ds => cases hba
  | cons c cs ih =>
    intro b hab hba
    cases b with
    | nil => cases hab
    | cons d ds =>
      unfold charListLeb at hab hba
      rcases lt_trichotomy c d with h | h | h
      · rw [if_neg (lt_asymm h), if_pos h] at hba
        cases hba
      · subst h
        rw [if_neg (lt_irrefl c), if_neg (lt_irrefl c)] at hab hba
        rw [ih ds hab hba]
      · rw [if_neg (lt_asymm h), if_pos h] at hab
        cases hab

/-- The code-point comparison is transitive. -/
lemma charListLeb_trans : ∀ a b c : List Char,
    charListLeb a b = true → charListLeb b c = true → charListLeb a c = true := by
  intro a
  induction a with
  | nil => intro b c _ _; rfl
  | cons x xs ih =>
    intro b c hab hbc
    cases b with
    | nil => cases hab
    | cons y ys =>
      cases c with
      | nil => cases hbc
      | cons z zs =>
        unfold charListLeb at hab hbc ⊢
        rcases lt_trichotomy x y with hxy | hxy | hxy
        · rcases lt_trichotomy y z with hyz | hyz | hyz
          · rw [if_pos (lt_trans hxy hyz)]
          · subst hyz; rw [if_pos hxy]
          · rw [if_neg (lt_asymm hyz), if_pos hyz] at hbc; cases hbc
        · subst hxy
          rcases lt_trichotomy x z with hyz | hyz | hyz
          · rw [if_pos hyz]
          · subst hyz
            rw [if_neg (lt_irrefl x), if_neg (lt_irrefl x)] at hab hbc ⊢
            exact ih ys zs hab hbc
          · rw [if_neg (lt_asymm hyz), if_pos hyz] at hbc; cases hbc
        · rw [if_neg (lt_asymm hxy), if_pos hxy] at hab; cases hab

/-- The non-strict key order used by the sort. -/
def keyLE (p q : String × PVal) : Prop := keyLeb p.1 q.1 = true

/-- The strict key order: key order plus distinct keys. -/
def keyLT (p q : String × PVal) : Prop := keyLE p q ∧ p.1 ≠ q.1

/-- Inserting preserves the multiset of entries. -/
lemma insertByKey_perm (p : String × PVal) :
    ∀ l : List (String × PVal), (insertByKey p l).Perm (p :: l) := by
  intro l
  induction l with
  | nil => exact List.Perm.refl _
  | cons q rest ih =>
    unfold insertByKey
    by_cases h : keyLeb p.1 q.1
    · rw [if_pos h]
    · rw [if_neg h]
      exact (ih.cons q).trans (List.Perm.swap p q rest)

/-- The sort permutes its input. -/
lemma sortByKey_perm : ∀ l : List (String × PVal), (sortByKey l).Perm l := by
  intro l
  induction l with
  | nil => exact List.Perm.refl _
  | cons p rest ih =>
    unfold sortByKey
    exact (insertByKey_perm p (sortByKey rest)).trans (ih.cons p)

/-- Inserting into a key-sorted list keeps it key-sorted. -/
lemma insertByKey_sorted (p : String × PVal) :
    ∀ l : List (String × PVal), l.Pairwise keyLE → (insertByKey p l).Pairwise keyLE := by
  intro l
  induction l with
  | nil => intro _; exact List.pairwise_singleton keyLE p
  | cons q rest ih =>
    intro h
    rw [List.pairwise_cons] at h
    unfold insertByKey
    by_cases hle : keyLeb p.1 q.1
    · rw [if_pos hle]
      rw [List.pairwise_cons]
      refine ⟨?_, List.pairwise_cons.mpr h⟩
      intro b hb
      rcases List.mem_cons.mp hb with rfl | hb
      · exact hle
      · exact charListLeb_trans _ _ _ hle (h.1 b hb)
    · rw [if_neg hle]
      have hq : keyLeb q.1 p.1 = true := by
        rcases charListLeb_total p.1.data q.1.data with ht | ht
        · exact absurd ht hle
        · exact ht
      rw [List.pairwise_cons]
      refine ⟨?_, ih h.2⟩
      intro b hb
      rcases (insertByKey_perm p rest).mem_iff.mp hb with hb2
      rcases List.mem_cons.mp hb2 with rfl | hb3
      · exact hq
      · exact h.1 b hb3

/-- The sort produces a key-sorted list. -/
lemma sortByKey_sorted : ∀ l : List (String × PVal), (sortByKey l).Pairwise keyLE := by
  intro l
  induction l with
  | nil => exact List.Pairwise.nil
  | cons p rest ih =>
    unfold sortByKey
    exact insertByKey_sorted p (sortByKey rest) ih

/-- Key-sortedness upgrades to the strict order when keys are distinct. -/
lemma sorted_strict (l : List (String × PVal)) (hs : l.Pairwise keyLE)
    (hnd : (l.map Prod.fst).Nodup) : l.Pairwise keyLT := by
  have hne : l.Pairwise (fun a b => a.1 ≠ b.1) := List.pairwise_map.mp hnd
  exact (hs.and hne).imp (fun h => ⟨h.1, h.2⟩)

/-- Permutations with distinct keys sort identically: the canonical key
order of a Python dict does not depend on insertion order. -/
lemma sortByKey_eq_of_perm (l1 l2 : List (String × PVal)) (hp : l1.Perm l2)
    (hnd : (l1.map Prod.fst).Nodup) : sortByKey l1 = sortByKey l2 := by
  have hnd2 : (l2.map Prod.fst).Nodup := ((hp.map Prod.fst)).nodup hnd
  have hperm : (sortByKey l1).Perm (sortByKey l2) :=
    (sortByKey_perm l1).trans (hp.trans (sortByKey_perm l2).symm)
  have hnds1 : ((sortByKey l1).map Prod.fst).Nodup :=
    (((sortByKey_perm l1).map Prod.fst).symm).nodup hnd
  have hnds2 : ((sortByKey l2).map Prod.fst).Nodup :=
    (((sortByKey_perm l2).map Prod.fst).symm).nodup hnd2
  haveI : IsAntisymm (String × PVal) keyLT := ⟨by
    rintro a b ⟨hab, hne⟩ ⟨hba, -⟩
    have : a.1.data = b.1.data := charListLeb_antisymm _ _ hab hba
    have hstr : a.1 = b.1 := by
      cases ha : a.1
      cases hb : b.1
      rw [ha, hb] at this
      simp at this
      rw [this]
    exact absurd hstr hne⟩
  exact List.eq_of_perm_of_sorted hperm
    (sorted_strict _ (sortByKey_sorted l1) hnds1)
    (sorted_strict _ (sortByKey_sorted l2) hnds2)

/-- Unfolding `canon` on a dictionary. -/
lemma canon_obj (kvs : List (String × PVal)) :
    canon (.obj kvs) = .obj (sortByKey (kvs.map (fun q => (q.1, canon q.2)))) := by
  rw [canon]
  rw [List.attach_map_val kvs (fun q => (q.1, canon q.2))]

/-- Folding 32-bit words into an accumulator below `2^k` stays below
`2^(k + 32·n)`. -/
lemma combineWords_aux : ∀ (ws : List Nat) (acc k : Nat), acc < 2 ^ k →
    ws.foldl (fun a w => a * 4294967296 + w % 4294967296) acc < 2 ^ (k + 32 * ws.length) := by
  intro ws
  induction ws with
  | nil => intro acc k h; simpa using h
  | cons w rest ih =>
    intro acc k h
    rw [List.foldl_cons, List.length_cons]
    have hw : w % 4294967296 < 4294967296 := Nat.mod_lt _ (by norm_num)
    have hstep : acc * 4294967296 + w % 4294967296 < 2 ^ (k + 32) := by
      have h2 : acc + 1 ≤ 2 ^ k := h
      have h3 : (acc + 1) * 4294967296 ≤ 2 ^ k * 4294967296 :=
        Nat.mul_le_mul_right _ h2
      have hpow : 2 ^ (k + 32) = 2 ^ k * 4294967296 := by
        rw [pow_add]; norm_num
      rw [hpow]
      calc acc * 4294967296 + w % 4294967296
          < acc * 4294967296 + 4294967296 := by omega
        _ = (acc + 1) * 4294967296 := by ring
        _ ≤ 2 ^ k * 4294967296 := h3
    have := ih (acc * 4294967296 + w % 4294967296) (k + 32) hstep
    have harith : k + 32 + 32 * rest.length = k + 32 * (rest.length + 1) := by ring
    rwa [harith] at this

/-- Every SHA-256 compression output has eight words. -/
lemma foldl_compress_length : ∀ (bs : List (List Nat)) (H : List Nat), H.length = 8 →
    (bs.foldl compressBlock H).length = 8 := by
  intro bs
  induction bs with
  | nil => intro H h; exact h
  | cons b rest ih =>
    intro H _
    rw [List.foldl_cons]
    exact ih (compressBlock H b) rfl

/-- The digest value is a 256-bit number. -/
lemma sha256Nat_lt (msg : List Nat) : sha256Nat msg < 2 ^ 256 := by
  unfold sha256Nat combineWords
  have hlen : (sha256Words msg).length = 8 := by
    unfold sha256Words
    exact foldl_compress_length _ shaH0 rfl
  have := combineWords_aux (sha256Words msg) 0 0 (by norm_num)
  rw [hlen] at this
  simpa using this

/-- A payload field on which two input objects disagree. -/
def PayloadFieldDiffers (v1 v2 : PVal) : Prop :=
  ∃ k, objGetP v1 k ≠ objGetP v2 k

/-- Claim C8 as stated over the embedding: the digest is insensitive to
key order on structurally-equal dictionaries, and distinguishes any two
inputs whose payload fields differ. -/
def C8Statement : Prop :=
  (∀ kvs1 kvs2 : List (String × PVal), kvs1.Perm kvs2 → (kvs1.map Prod.fst).Nodup →
    digest_for_inputs (.obj kvs1) = digest_for_inputs (.obj kvs2)) ∧
  (∀ v1 v2 : PVal, PayloadFieldDiffers v1 v2 →
    digest_for_inputs v1 ≠ digest_for_inputs v2)

/-- C8 counterexample: the second conjunct is impossible for any
256-bit digest — infinitely many single-field objects map into the
finite digest range, so two of them with different `payload` values must
collide (pigeonhole; SHA-256 is modelled bit-for-bit). -/
theorem c8_digest_injectivity_counterexample : ¬ C8Statement := by
  rintro ⟨-, hinj⟩
  have hbound : ∀ n : ℕ,
      sha256Nat (utf8Bytes (serVal (canon (.obj [("payload", .int (n : Int))])))) < 2 ^ 256 :=
    fun n => sha256Nat_lt _
  obtain ⟨m, n, hmn, hfeq⟩ := Finite.exists_ne_map_eq_of_infinite
    (fun n : ℕ => (⟨_, hbound n⟩ : Fin (2 ^ 256)))
  apply hinj (.obj [("payload", .int (m : Int))]) (.obj [("payload", .int (n : Int))])
  · refine ⟨"payload", ?_⟩
    intro he
    apply hmn
    have h2 := PVal.int.inj he
    exact_mod_cast h2
  · unfold digest_for_inputs
    have hval : sha256Nat (utf8Bytes (serVal (canon (.obj [("payload", .int (m : Int))]))))
        = sha256Nat (utf8Bytes (serVal (canon (.obj [("payload", .int (n : Int))])))) :=
      congrArg Fin.val hfeq
    rw [hval]

/-- C8 amended: the digest is deterministic and order-independent — for
any two dictionaries holding the same entries in different insertion
order (distinct keys, as in a Python dict), the digests coincide — and a
digest difference soundly witnesses an input difference; but the digest
cannot differ for *every* pair of inputs with differing payload fields,
the range being finite (see the counterexample). -/
theorem c8_digest_order_independent :
    (∀ kvs1 kvs2 : List (String × PVal), kvs1.Perm kvs2 → (kvs1.map Prod.fst).Nodup →
      digest_for_inputs (.obj kvs1) = digest_for_inputs (.obj kvs2)) ∧
    (∀ v : PVal, digest_for_inputs v = digest_for_inputs v) ∧
    (∀ v1 v2 : PVal, digest_for_inputs v1 ≠ digest_for_inputs v2 → v1 ≠ v2) := by
  refine ⟨?_, fun v => rfl, fun v1 v2 hne he => hne (by rw [he])⟩
  intro kvs1 kvs2 hp hnd
  have hcanon : canon (.obj kvs1) = canon (.obj kvs2) := by
    rw [canon_obj, canon_obj]
    have hkeys : ((kvs1.map (fun q => (q.1, canon q.2))).map Prod.fst).Nodup := by
      rw [List.map_map]
      exact hnd
    rw [sortByKey_eq_of_perm _ _ (hp.map _) hkeys]
  unfold digest_for_inputs
  rw [hcanon]

/-- C8 amended witness: reordering a two-key dictionary leaves the digest
unchanged. -/
theorem c8_digest_order_independent_witness :
    ([("a", PVal.int 1), ("b", PVal.int 2)].Perm [("b", PVal.int 2), ("a", PVal.int 1)]) ∧
    (([("a", PVal.int 1), ("b", PVal.int 2)].map Prod.fst).Nodup) ∧
    digest_for_inputs (.obj [("a", PVal.int 1), ("b", PVal.int 2)])
      = digest_for_inputs (.obj [("b", PVal.int 2), ("a", PVal.int 1)]) := by
  refine ⟨List.Perm.swap _ _ _, by decide, ?_⟩
  exact c8_digest_order_independent.1 _ _ (List.Perm.swap _ _ _) (by decide)
